import Mathlib

/-!
# opentrack: lifecycle of the tracking session in `MainWindow`

A shallow embedding of the session lifecycle code of `src/gui/main-window.cpp`
(`startTracker`, `stopTracker`, the queued control-event handlers,
`maybe_start_profile_from_executable`, `showHeadPose`, the three
`show*Settings` slots and the header text of `init_tray_menu`), and of the
older main window of `src/facetracknoir/facetracknoir.cpp` (`FaceTrackNoIR`:
its `startTracker`, `stopTracker`, the two shortcut slots and the filter
selector its constructor fills).

A window is a record of the members the lifecycle code reads and writes.
Every statement that calls a collaborator, or that changes the lifetime of the
session, also appends one entry to `trace`, the chronological call log; the log
is how "was reported", "was not saved" and "happens before" are stated.

Handlers are run in two ways: to their end, one after the other (`step`,
`Reachable`), and as Qt runs them, a handler that opens a modal warning box
waiting there while the event loop of the box delivers further handlers
(`loop_step`, `LoopReachable`).
-/

namespace Opentrack

/-! ## Data model -/

/-- A live capability instance (an `ITracker`, `IFilter` or `IProtocol` object),
identified by the number of its allocation. -/
structure Instance where
  id : Nat
deriving DecidableEq, Repr

/-- The struct `SelectedLibraries`: the three owning pointers and the flag the
lifecycle code tests. A null pointer is `none`. -/
structure SelectedLibraries where
  pTracker : Option Instance
  pFilter : Option Instance
  pProtocol : Option Instance
  correct : Bool
deriving DecidableEq, Repr

/-- Modelled from the spec: the default constructor `SelectedLibraries()`, whose
definition is not among the sources. The spec calls its value the empty
`SelectedLibraries`: no tracker, filter or protocol instance, and not `correct`. -/
def SelectedLibraries.empty : SelectedLibraries :=
  { pTracker := none, pFilter := none, pProtocol := none, correct := false }

/-- Some capability instance is held by this set of libraries. -/
def SelectedLibraries.live (l : SelectedLibraries) : Bool :=
  l.pTracker.isSome || l.pFilter.isSome || l.pProtocol.isSome

/-- Modelled from the spec: the class `Work` behind `work`, built by
`std::make_shared<Work>(pose, libs, winId())`, is not among the sources. The
spec's Session is "the live, owned set of tracker instance, filter instance,
protocol instance, curve mapping"; the record keeps the libraries the session
was built from. -/
structure Work where
  libs : SelectedLibraries
deriving DecidableEq, Repr

/-- A `QTimer`: whether it is running, and its period in milliseconds. -/
structure QTimer where
  active : Bool
  interval : Nat
deriving DecidableEq, Repr

/-- Modelled from the spec: the dialog interfaces `ITrackerDialog`,
`IProtocolDialog` and `IFilterDialog` are declared outside the sources. By the
spec a dialog observing a live instance holds a non-owning reference to it:
`registered` is the instance pointer the window last handed to the dialog with
`register_*` and has not withdrawn with `unregister_*`. -/
structure Dialog where
  visible : Bool
  registered : Option Instance
deriving DecidableEq, Repr

/-- The `OptionsDialog`, whose class is not among the sources; `tracking` is the
flag last passed to `update_widgets_states`. -/
structure OptionsDialog where
  tracking : Bool
deriving DecidableEq, Repr

/-- The two pixmaps `updateButtonState` puts on `video_frame_label`. -/
inductive Pixmap where
  | tracking_not_started
  | no_feed
deriving DecidableEq, Repr

/-- The widgets `setFocus` is called on. -/
inductive FocusTarget where
  | btnStartTracker
  | btnStopTracker
deriving DecidableEq, Repr

/-- The widgets of `ui` that the lifecycle code touches. -/
structure Ui where
  iconcomboProfile_enabled : Bool
  btnStartTracker_enabled : Bool
  btnStopTracker_enabled : Bool
  iconcomboProtocol_enabled : Bool
  iconcomboFilter_enabled : Bool
  iconcomboTrackerSource_enabled : Bool
  profile_button_enabled : Bool
  video_frame_label_visible : Bool
  video_frame_label_pixmap : Pixmap
  focus : Option FocusTarget
deriving DecidableEq, Repr

/-- One entry of the call log. -/
inductive Effect where
  /-- `work = nullptr`. -/
  | work_reset
  /-- The call `SelectedLibraries(ui.video_frame, current_tracker(),
  current_protocol(), current_filter())` returned `built`; `held` is what the
  member `libs` holds while the temporary is built (the assignment destroys the
  old value only afterwards). -/
  | libs_ctor (held built : SelectedLibraries)
  /-- `libs = SelectedLibraries()`. -/
  | libs_reset
  /-- `work = std::make_shared<Work>(pose, libs, winId())`. -/
  | work_make (libs : SelectedLibraries)
  /-- `work->reload_shortcuts()`. -/
  | reload_shortcuts
  /-- `ui.pose_display->rotateBy(...)` in `display_pose`, here with the all-zero
  pose. -/
  | rotateBy_zero
  /-- The twelve LCD `display` calls of `display_pose`, here with the all-zero
  pose. -/
  | lcd_display_zero
  /-- `mapping_widget->update()`. -/
  | mapping_widget_update
  /-- `set_title(game_title)`: `proto` is the protocol instance whose
  `game_name()` was asked, `none` for the empty game title. -/
  | set_title (proto : Option Instance)
  /-- `ui.pose_display->rotateBy_real(0, 0, 0, 0, 0, 0)`. -/
  | rotateBy_real_zero
  /-- `QMessageBox::warning(this, title, text, ...)`. -/
  | warning (title text : String)
  /-- `save_modules()`. -/
  | save_modules
  | register_tracker (p : Option Instance)
  | register_filter (p : Option Instance)
  | register_protocol (p : Option Instance)
  | unregister_tracker
  | unregister_protocol
  | unregister_filter
  /-- `pose_update_timer.start(msec)`. -/
  | timer_start (msec : Nat)
  /-- `pose_update_timer.stop()`. -/
  | timer_stop
  /-- `updateButtonState(running, inertialp)`. -/
  | update_button_state (running inertialp : Bool)
  /-- `options_widget->update_widgets_states(flag)`. -/
  | update_widgets_states (flag : Bool)
  | set_focus (w : FocusTarget)
  /-- `ui.iconcomboProfile->setCurrentText(prof)`. -/
  | profile_set_current_text (prof : String)
  /-- `set_profile(new_name)` in `profile_selected`. -/
  | set_profile (prof : String)
  /-- `options::detail::bundler::refresh_all_bundles()`; the reload itself is
  outside this model. -/
  | refresh_all_bundles
  /-- `work->tracker->get_raw_and_mapped_poses(mapped, raw)`. -/
  | get_raw_and_mapped_poses
  /-- `ui.pose_display->rotateBy(...)` in `display_pose`, with the mapped pose just
  read from the tracker. -/
  | rotateBy_polled
  /-- The twelve LCD `display` calls of `display_pose`, with the poses just read
  from the tracker. -/
  | lcd_display_polled
deriving DecidableEq, Repr

/-- The members of `MainWindow` the lifecycle code reads and writes, and the
call log. -/
structure MainWindow where
  work : Option Work
  libs : SelectedLibraries
  pose_update_timer : QTimer
  pTrackerDialog : Option Dialog
  pProtocolDialog : Option Dialog
  pFilterDialog : Option Dialog
  options_widget : Option OptionsDialog
  /-- Whether `mapping_widget` is non-null. -/
  mapping_widget : Bool
  ui : Ui
  trace : List Effect
deriving DecidableEq, Repr

/-- What the environment decides during one `startTracker`: the value the
`SelectedLibraries` constructor returns for the current selection (the
constructor is not among the sources), and whether the tracker left
`ui.video_frame` without a layout. -/
structure StartEnv where
  built : SelectedLibraries
  is_inertial : Bool
deriving DecidableEq, Repr

/-- What the process detector answers during one
`maybe_start_profile_from_executable`: `config_to_start` is `some prof` when
`det.config_to_start(prof)` returns true, and `should_stop` is
`det.should_stop()`. -/
structure DetectorPoll where
  config_to_start : Option String
  should_stop : Bool
deriving DecidableEq, Repr

/-- What the profile store answers when `ui.iconcomboProfile->setCurrentText(prof)`
is called: `switches` is true when the combobox emits `currentTextChanged` with
a non-empty name different from `group::ini_filename()`, so that
`profile_selected` switches the profile; `writable` is false when
`warn_on_config_not_writable` finds the new file not writable. -/
structure ProfileStore where
  switches : Bool
  writable : Bool
deriving DecidableEq, Repr

/-- The output of a queued control-event handler: the line it writes to
`qDebug()`, and the window after it ran. -/
structure Handled where
  debug : String
  window : MainWindow
deriving DecidableEq, Repr

/-! ## Statements -/

/-- Append one entry to the call log. -/
def MainWindow.log (e : Effect) (s : MainWindow) : MainWindow :=
  { s with trace := s.trace ++ [e] }

/-- `MainWindow::updateButtonState` on the widgets. -/
def Ui.updateButtonState (running inertialp : Bool) (u : Ui) : Ui :=
  let not_running := !running
  { u with
    iconcomboProfile_enabled := not_running
    btnStartTracker_enabled := not_running
    btnStopTracker_enabled := running
    iconcomboProtocol_enabled := not_running
    iconcomboFilter_enabled := not_running
    iconcomboTrackerSource_enabled := not_running
    profile_button_enabled := not_running
    video_frame_label_visible := not_running || inertialp
    video_frame_label_pixmap :=
      if not_running then Pixmap.tracking_not_started else Pixmap.no_feed }

/-- `MainWindow::updateButtonState`. -/
def updateButtonState (running inertialp : Bool) (s : MainWindow) : MainWindow :=
  ({ s with ui := s.ui.updateButtonState running inertialp }).log
    (.update_button_state running inertialp)

/-- `work = nullptr;` -/
def work_reset (s : MainWindow) : MainWindow :=
  ({ s with work := none }).log .work_reset

/-- `libs = SelectedLibraries(ui.video_frame, current_tracker(), current_protocol(),
current_filter());` -/
def libs_assign_selected (built : SelectedLibraries) (s : MainWindow) : MainWindow :=
  ({ s with libs := built }).log (.libs_ctor s.libs built)

/-- `libs = SelectedLibraries();` -/
def libs_reset (s : MainWindow) : MainWindow :=
  ({ s with libs := SelectedLibraries.empty }).log .libs_reset

/-- `MainWindow::set_title(game_title)`, with the title taken from `proto`. -/
def set_title (proto : Option Instance) (s : MainWindow) : MainWindow :=
  s.log (.set_title proto)

/-- `if (mapping_widget) mapping_widget->update();` -/
def mapping_widget_update (s : MainWindow) : MainWindow :=
  if s.mapping_widget then s.log .mapping_widget_update else s

/-- `MainWindow::display_pose(p, p)` with `p` the all-zero pose. The title is
set from `libs.pProtocol->game_name()` when `libs.pProtocol` is non-null. -/
def display_pose_zero (s : MainWindow) : MainWindow :=
  let s1 := (mapping_widget_update (s.log .rotateBy_zero)).log .lcd_display_zero
  set_title s1.libs.pProtocol s1

/-- `QMessageBox::warning(this, title, text, QMessageBox::Ok, QMessageBox::NoButton);` -/
def warning (title text : String) (s : MainWindow) : MainWindow :=
  s.log (.warning title text)

/-- `MainWindow::save_modules`. -/
def save_modules (s : MainWindow) : MainWindow :=
  s.log .save_modules

/-- `work = std::make_shared<Work>(pose, libs, winId());` -/
def work_make (s : MainWindow) : MainWindow :=
  ({ s with work := some { libs := s.libs } }).log (.work_make s.libs)

/-- `work->reload_shortcuts();` -/
def work_reload_shortcuts (s : MainWindow) : MainWindow :=
  s.log .reload_shortcuts

/-- `if (pTrackerDialog) pTrackerDialog->register_tracker(libs.pTracker.get());` -/
def register_tracker_dialog (s : MainWindow) : MainWindow :=
  match s.pTrackerDialog with
  | some d =>
    ({ s with pTrackerDialog := some { d with registered := s.libs.pTracker } }).log
      (.register_tracker s.libs.pTracker)
  | none => s

/-- `if (pFilterDialog) pFilterDialog->register_filter(libs.pFilter.get());` -/
def register_filter_dialog (s : MainWindow) : MainWindow :=
  match s.pFilterDialog with
  | some d =>
    ({ s with pFilterDialog := some { d with registered := s.libs.pFilter } }).log
      (.register_filter s.libs.pFilter)
  | none => s

/-- `if (pProtocolDialog) pProtocolDialog->register_protocol(libs.pProtocol.get());` -/
def register_protocol_dialog (s : MainWindow) : MainWindow :=
  match s.pProtocolDialog with
  | some d =>
    ({ s with pProtocolDialog := some { d with registered := s.libs.pProtocol } }).log
      (.register_protocol s.libs.pProtocol)
  | none => s

/-- `if (pTrackerDialog) pTrackerDialog->unregister_tracker();` -/
def unregister_tracker_dialog (s : MainWindow) : MainWindow :=
  match s.pTrackerDialog with
  | some d =>
    ({ s with pTrackerDialog := some { d with registered := none } }).log .unregister_tracker
  | none => s

/-- `if (pProtocolDialog) pProtocolDialog->unregister_protocol();` -/
def unregister_protocol_dialog (s : MainWindow) : MainWindow :=
  match s.pProtocolDialog with
  | some d =>
    ({ s with pProtocolDialog := some { d with registered := none } }).log .unregister_protocol
  | none => s

/-- `if (pFilterDialog) pFilterDialog->unregister_filter();` -/
def unregister_filter_dialog (s : MainWindow) : MainWindow :=
  match s.pFilterDialog with
  | some d =>
    ({ s with pFilterDialog := some { d with registered := none } }).log .unregister_filter
  | none => s

/-- `pose_update_timer.start(msec);` -/
def pose_update_timer_start (msec : Nat) (s : MainWindow) : MainWindow :=
  ({ s with pose_update_timer := { active := true, interval := msec } }).log (.timer_start msec)

/-- `pose_update_timer.stop();` -/
def pose_update_timer_stop (s : MainWindow) : MainWindow :=
  ({ s with pose_update_timer := { s.pose_update_timer with active := false } }).log .timer_stop

/-- `ui.pose_display->rotateBy_real(0, 0, 0, 0, 0, 0);` -/
def rotateBy_real_zero (s : MainWindow) : MainWindow :=
  s.log .rotateBy_real_zero

/-- `if (options_widget) options_widget->update_widgets_states(flag);` -/
def options_update_widgets_states (flag : Bool) (s : MainWindow) : MainWindow :=
  match s.options_widget with
  | some _ =>
    ({ s with options_widget := some { tracking := flag } }).log (.update_widgets_states flag)
  | none => s

/-- `ui.btnStopTracker->setFocus();` or `ui.btnStartTracker->setFocus();` -/
def set_focus (w : FocusTarget) (s : MainWindow) : MainWindow :=
  ({ s with ui := { s.ui with focus := some w } }).log (.set_focus w)

/-- Run a list of statements one after the other. -/
def run (stmts : List (MainWindow → MainWindow)) (s : MainWindow) : MainWindow :=
  stmts.foldl (fun t f => f t) s

/-! ## `startTracker` and `stopTracker` -/

/-- The statements of `MainWindow::startTracker` after the libraries were found
`correct` (from `save_modules()` to the end of the function). -/
def startTracker_tail (is_inertial : Bool) : List (MainWindow → MainWindow) :=
  [ save_modules,
    work_make,
    work_reload_shortcuts,
    register_tracker_dialog,
    register_filter_dialog,
    register_protocol_dialog,
    pose_update_timer_start 50,
    updateButtonState true is_inertial,
    options_update_widgets_states true,
    set_focus .btnStopTracker ]

/-- `MainWindow::startTracker`. -/
def startTracker (e : StartEnv) (s : MainWindow) : MainWindow :=
  if s.work.isSome then s
  else
    let s1 := display_pose_zero (libs_assign_selected e.built (work_reset s))
    if !s1.libs.correct then
      libs_reset
        (warning "Library load error" "One of libraries failed to load. Check installation." s1)
    else
      run (startTracker_tail e.is_inertial) s1

/-- The statements of `MainWindow::stopTracker` after the test of `work`. -/
def stopTracker_body : List (MainWindow → MainWindow) :=
  [ pose_update_timer_stop,
    rotateBy_real_zero,
    unregister_tracker_dialog,
    unregister_protocol_dialog,
    unregister_filter_dialog,
    save_modules,
    work_reset,
    libs_reset,
    display_pose_zero,
    updateButtonState false false,
    options_update_widgets_states false,
    set_title none,
    set_focus .btnStartTracker ]

/-- `MainWindow::stopTracker`. -/
def stopTracker (s : MainWindow) : MainWindow :=
  if s.work.isNone then s else run stopTracker_body s

/-! ## Control events -/

/-- The handler connected to `emit_start_tracker`:
`qDebug() << "start tracker"; startTracker();` -/
def on_start_tracker (e : StartEnv) (s : MainWindow) : Handled :=
  { debug := "start tracker", window := startTracker e s }

/-- The handler connected to `emit_stop_tracker`:
`qDebug() << "stop tracker"; stopTracker();` -/
def on_stop_tracker (s : MainWindow) : Handled :=
  { debug := "stop tracker", window := stopTracker s }

/-- The handler connected to `emit_toggle_tracker`:
`qDebug() << "toggle tracker"; if (work) stopTracker(); else startTracker();` -/
def on_toggle_tracker (e : StartEnv) (s : MainWindow) : Handled :=
  { debug := "toggle tracker"
    window := if s.work.isSome then stopTracker s else startTracker e s }

/-- The handler connected to `emit_restart_tracker`:
`qDebug() << "restart tracker"; stopTracker(); startTracker();` -/
def on_restart_tracker (e : StartEnv) (s : MainWindow) : Handled :=
  { debug := "restart tracker", window := startTracker e (stopTracker s) }

/-- `MainWindow::profile_selected(name)` as run by the `currentTextChanged`
signal of the profile combobox. -/
def profile_selected (p : ProfileStore) (prof : String) (s : MainWindow) : MainWindow :=
  if p.switches then
    let s1 := (save_modules s).log (.set_profile prof)
    let s2 :=
      if p.writable then s1
      else warning "Something went wrong" "Check permissions and ownership for your .ini file!" s1
    (set_title none s2).log .refresh_all_bundles
  else s

/-- `ui.iconcomboProfile->setCurrentText(prof);` with the slot it triggers. -/
def profile_set_current_text (p : ProfileStore) (prof : String) (s : MainWindow) : MainWindow :=
  profile_selected p prof (s.log (.profile_set_current_text prof))

/-- `MainWindow::maybe_start_profile_from_executable`. -/
def maybe_start_profile_from_executable (d : DetectorPoll) (p : ProfileStore) (e : StartEnv)
    (s : MainWindow) : MainWindow :=
  if s.work.isNone then
    match d.config_to_start with
    | some prof => startTracker e (profile_set_current_text p prof s)
    | none => s
  else
    if d.should_stop then stopTracker s else s

/-- `MainWindow::showHeadPose`, the slot of `pose_update_timer`. The function
dereferences `work` without a test: the result is `none` when `work` is null. -/
def showHeadPose (s : MainWindow) : Option MainWindow :=
  match s.work with
  | none => none
  | some _ =>
    let s1 :=
      (mapping_widget_update ((s.log .get_raw_and_mapped_poses).log .rotateBy_polled)).log
        .lcd_display_polled
    some (set_title s1.libs.pProtocol s1)

/-! ## Reachable states -/

/-- The window when the constructor `MainWindow::MainWindow` returns: no
session, default-constructed `libs`, idle timer, no dialog, and the widgets as
`updateButtonState(false, false)` leaves them (it writes every modelled widget
but the focus). The call log starts empty here. -/
def MainWindow.init : MainWindow :=
  { work := none
    libs := SelectedLibraries.empty
    pose_update_timer := { active := false, interval := 0 }
    pTrackerDialog := none
    pProtocolDialog := none
    pFilterDialog := none
    options_widget := none
    mapping_widget := false
    ui := Ui.updateButtonState false false
      { iconcomboProfile_enabled := true
        btnStartTracker_enabled := true
        btnStopTracker_enabled := true
        iconcomboProtocol_enabled := true
        iconcomboFilter_enabled := true
        iconcomboTrackerSource_enabled := true
        profile_button_enabled := true
        video_frame_label_visible := true
        video_frame_label_pixmap := Pixmap.tracking_not_started
        focus := none }
    trace := [] }

/-- The lifecycle steps: the four control events and the detector poll. -/
inductive Event where
  | start (e : StartEnv)
  | stop
  | toggle (e : StartEnv)
  | restart (e : StartEnv)
  | maybe_start (d : DetectorPoll) (p : ProfileStore) (e : StartEnv)
deriving DecidableEq, Repr

/-- One lifecycle step whose handler runs to its end: a warning box it opens is
closed before anything else is delivered. Handlers that wait in a warning box
while other handlers run are in `loop_step` below. -/
def step (s : MainWindow) : Event → MainWindow
  | .start e => (on_start_tracker e s).window
  | .stop => (on_stop_tracker s).window
  | .toggle e => (on_toggle_tracker e s).window
  | .restart e => (on_restart_tracker e s).window
  | .maybe_start d p e => maybe_start_profile_from_executable d p e s

/-- The window after a finite sequence of lifecycle steps from `s`, each handler
run to its end before the next starts. -/
def steps (s : MainWindow) (evs : List Event) : MainWindow :=
  evs.foldl step s

/-- A window reachable from the initial one by lifecycle steps, each handler run
to its end before the next starts (the runs of `LoopReachable` in which no
handler is delivered while a warning box is open). -/
def Reachable (s : MainWindow) : Prop :=
  ∃ evs : List Event, steps MainWindow.init evs = s

/-! ## Sample data -/

/-- A set of libraries that loaded: tracker 1, no filter, protocol 2. -/
def sampleLibs : SelectedLibraries :=
  { pTracker := some ⟨1⟩, pFilter := none, pProtocol := some ⟨2⟩, correct := true }

/-- A set of libraries whose tracker failed to load after the protocol did. -/
def sampleBrokenLibs : SelectedLibraries :=
  { pTracker := none, pFilter := none, pProtocol := some ⟨3⟩, correct := false }

/-- A start in which the libraries load. -/
def sampleEnv : StartEnv := { built := sampleLibs, is_inertial := false }

/-- A start in which the libraries fail to load. -/
def sampleBrokenEnv : StartEnv := { built := sampleBrokenLibs, is_inertial := false }

/-- The initial window with the three settings dialogs open. -/
def sampleIdle : MainWindow :=
  { MainWindow.init with
    pTrackerDialog := some { visible := true, registered := none }
    pProtocolDialog := some { visible := true, registered := none }
    pFilterDialog := some { visible := true, registered := none } }

/-- A window with a running session and the three settings dialogs open. -/
def sampleRunning : MainWindow := startTracker sampleEnv sampleIdle

/-! ## The lifecycle invariant -/

/-- The invariant of the lifecycle between handlers that run to their end:
without a session `libs` is empty; every
`SelectedLibraries` constructor call in the log ran while `libs` was empty; and
the pose timer runs only while a session exists whose libraries are `correct`. -/
def Inv (s : MainWindow) : Prop :=
  (s.work = none → s.libs = SelectedLibraries.empty) ∧
  (∀ held built, Effect.libs_ctor held built ∈ s.trace → held = SelectedLibraries.empty) ∧
  (s.pose_update_timer.active = true → s.work.isSome = true ∧ s.libs.correct = true)

/-- The window after the first `k` statements of the body of `stopTracker`. -/
def stopTracker_upto (k : Nat) (s : MainWindow) : MainWindow :=
  run (stopTracker_body.take k) s

/-- No open settings dialog of the window holds an instance pointer. -/
def dialogs_detached (s : MainWindow) : Prop :=
  (∀ d, s.pTrackerDialog = some d → d.registered = none) ∧
  (∀ d, s.pProtocolDialog = some d → d.registered = none) ∧
  (∀ d, s.pFilterDialog = some d → d.registered = none)

/-! ## The widgets follow the session -/

/-- The widgets `updateButtonState` enables and disables agree with `work`: the
profile selector, the profile button, the three module selectors and the Start
button are enabled exactly when `work` is null, the Stop button exactly when
`work` is non-null. -/
def widgets_follow_session (s : MainWindow) : Prop :=
  s.ui.iconcomboProfile_enabled = s.work.isNone ∧
  s.ui.profile_button_enabled = s.work.isNone ∧
  s.ui.iconcomboTrackerSource_enabled = s.work.isNone ∧
  s.ui.iconcomboProtocol_enabled = s.work.isNone ∧
  s.ui.iconcomboFilter_enabled = s.work.isNone ∧
  s.ui.btnStartTracker_enabled = s.work.isNone ∧
  s.ui.btnStopTracker_enabled = s.work.isSome

/-! ## Settings dialogs -/

/-- Modelled from the spec: the class `dylib` is declared outside the sources. By
the spec a module descriptor has a name, an icon reference and "optionally" a
factory of one configuration dialog: `has_Dialog` says that the function
pointer `lib->Dialog` is non-null. -/
structure Dylib where
  name : String
  icon : String
  has_Dialog : Bool
deriving DecidableEq, Repr

/-- The template function `mk_dialog(lib, orig)`: the returned flag, and the
dialog pointer `orig` afterwards. A dialog that is already visible is shown and
raised again and kept; otherwise, when `lib` is non-null and has a dialog
factory, a new dialog replaces `orig` and is shown. -/
def mk_dialog (lib : Option Dylib) (orig : Option Dialog) : Bool × Option Dialog :=
  if (match orig with
      | some d => d.visible
      | none => false) then
    (false, orig)
  else
    if (match lib with
        | some l => l.has_Dialog
        | none => false) then
      (true, some { visible := true, registered := none })
    else
      (false, orig)

/-- `MainWindow::showTrackerSettings`, with `lib` the value of `current_tracker()`:
`if (mk_dialog(current_tracker(), pTrackerDialog) && libs.pTracker)
pTrackerDialog->register_tracker(libs.pTracker.get());` -/
def showTrackerSettings (lib : Option Dylib) (s : MainWindow) : MainWindow :=
  let r := mk_dialog lib s.pTrackerDialog
  let s1 := { s with pTrackerDialog := r.2 }
  if r.1 && s1.libs.pTracker.isSome then register_tracker_dialog s1 else s1

/-- `MainWindow::showProtocolSettings`, with `lib` the value of
`current_protocol()`. -/
def showProtocolSettings (lib : Option Dylib) (s : MainWindow) : MainWindow :=
  let r := mk_dialog lib s.pProtocolDialog
  let s1 := { s with pProtocolDialog := r.2 }
  if r.1 && s1.libs.pProtocol.isSome then register_protocol_dialog s1 else s1

/-- `MainWindow::showFilterSettings`, with `lib` the value of `current_filter()`. -/
def showFilterSettings (lib : Option Dylib) (s : MainWindow) : MainWindow :=
  let r := mk_dialog lib s.pFilterDialog
  let s1 := { s with pFilterDialog := r.2 }
  if r.1 && s1.libs.pFilter.isSome then register_filter_dialog s1 else s1

/-- The dialog pointer holds a visible dialog. -/
def dialog_visible (d : Option Dialog) : Bool :=
  match d with
  | some x => x.visible
  | none => false

/-- A module descriptor with a settings dialog. -/
def sampleDylib : Dylib := { name := "Accela", icon := ":/images/filter-16.png", has_Dialog := true }

/-! ## The tray menu header -/

/-- `QString::startsWith(s)` on the characters of the string. -/
def startsWith (s d : List Char) : Bool := s.isPrefixOf d

/-- `QString::endsWith(s)` on the characters of the string. -/
def endsWith (s d : List Char) : Bool := s.isSuffixOf d

/-- `QString::replace(position, n, after)` of Qt on the characters of the string:
the `n` characters from index `position` on are replaced by `after`; a
`position` beyond the end leaves the string as it is, and `n` is cut at the end
of the string. -/
def QString_replace (position n : Nat) (after d : List Char) : List Char :=
  if d.length < position then d else d.take position ++ after ++ d.drop (position + n)

/-- The text `MainWindow::init_tray_menu` puts on `menu_action_header`, for the
version string `v` (`opentrack_version`). `sizeof("opentrack")` is 10 and
`sizeof("DEBUG")` is 6, the terminating zero included. -/
def init_tray_menu_display_name (v : List Char) : List Char :=
  let d1 :=
    if startsWith "opentrack-".toList v then QString_replace (10 - 1) 1 [' '] v else v
  if endsWith "-DEBUG".toList d1 then
    QString_replace (d1.length - 6) d1.length " (debug)".toList d1
  else d1

/-! ## `FaceTrackNoIR`, the main window of `src/facetracknoir/facetracknoir.cpp` -/

/-- One entry of the call log of `FaceTrackNoIR`. -/
inductive FtnEffect where
  /-- `b->save()`. -/
  | settings_save
  /-- `b->reload()` in `loadSettings`. -/
  | settings_reload
  /-- `pose.load_mappings()` in `loadSettings`. -/
  | load_mappings
  /-- `work->sc = std::make_shared<Shortcuts>()` in `bindKeyboardShortcuts`. -/
  | shortcuts_rebind
  /-- `work = nullptr`. -/
  | work_reset
  /-- The call `SelectedLibraries(ui.video_frame, current_tracker(),
  current_protocol(), current_filter())` returned `built` while the member `libs`
  still holds `held`. -/
  | libs_ctor (held built : SelectedLibraries)
  /-- `libs = SelectedLibraries()`. -/
  | libs_reset
  /-- `work = std::make_shared<Work>(s, pose, libs, this)`. -/
  | work_make (libs : SelectedLibraries)
  /-- `ui.pose_display->rotateBy(...)` with zero angles. -/
  | rotateBy_zero
  /-- `mapping_widget->update()`. -/
  | mapping_widget_update
  /-- The twelve LCD `display` calls of `display_pose` with the all-zero pose. -/
  | lcd_display_zero
  /-- `QMessageBox::warning(this, title, text, ...)`. -/
  | warning (title text : String)
  /-- `keybindingWorker = new KeybindingWorker(...); keybindingWorker->start();` -/
  | keybinding_worker_start
  /-- `should_quit = true`, `wait()` and `delete` of the keybinding worker. -/
  | keybinding_worker_quit
  /-- `ui.video_frame->show()`. -/
  | video_frame_show
  /-- `timUpdateHeadPose.start(msec)`. -/
  | timer_start (msec : Nat)
  /-- `timUpdateHeadPose.stop()`. -/
  | timer_stop
  /-- `updateButtonState(running, inertialp)`. -/
  | update_button_state (running inertialp : Bool)
  /-- `ui.game_name->setText(text)`. -/
  | game_name_setText (text : String)
  | unregister_tracker
  | unregister_protocol
  | unregisterFilter
  /-- `pFilterDialog->registerFilter(libs.pFilter.get())`. -/
  | registerFilter (p : Option Instance)
  /-- `work->tracker->center()` on the tracker of the session `session`. -/
  | tracker_center (session : Work)
  /-- `work->tracker->toggle_enabled()` on the tracker of the session `session`. -/
  | tracker_toggle_enabled (session : Work)
deriving DecidableEq, Repr

/-- The widgets of `ui` that `FaceTrackNoIR` enables, shows or writes. -/
structure FtnUi where
  iconcomboProfile_enabled : Bool
  btnStartTracker_enabled : Bool
  btnStopTracker_enabled : Bool
  iconcomboProtocol_enabled : Bool
  iconcomboFilter_enabled : Bool
  iconcomboTrackerSource_enabled : Bool
  video_frame_label_visible : Bool
  video_frame_visible : Bool
  game_name : String
deriving DecidableEq, Repr

/-- The members of `FaceTrackNoIR` its lifecycle code reads and writes, and the
call log. -/
structure FaceTrackNoIR where
  work : Option Work
  libs : SelectedLibraries
  timUpdateHeadPose : QTimer
  pTrackerDialog : Option Dialog
  pProtocolDialog : Option Dialog
  pFilterDialog : Option Dialog
  /-- Whether `mapping_widget` is non-null. -/
  mapping_widget : Bool
  /-- Whether `keybindingWorker` is non-null (only in a `_WIN32` build). -/
  keybindingWorker : Bool
  ui : FtnUi
  trace : List FtnEffect
deriving DecidableEq, Repr

/-- The output of a shortcut slot of `FaceTrackNoIR`: the line it writes to
`qDebug()`, and the window after it ran. -/
structure FtnHandled where
  debug : String
  window : FaceTrackNoIR
deriving DecidableEq, Repr

namespace FaceTrackNoIR

/-- Append one entry to the call log. -/
def log (e : FtnEffect) (s : FaceTrackNoIR) : FaceTrackNoIR :=
  { s with trace := s.trace ++ [e] }

/-- Run a list of statements one after the other. -/
def run (stmts : List (FaceTrackNoIR → FaceTrackNoIR)) (s : FaceTrackNoIR) : FaceTrackNoIR :=
  stmts.foldl (fun t f => f t) s

/-- `FaceTrackNoIR::updateButtonState`. -/
def updateButtonState (running inertialp : Bool) (s : FaceTrackNoIR) : FaceTrackNoIR :=
  let not_running := !running
  ({ s with
    ui := { s.ui with
      iconcomboProfile_enabled := not_running
      btnStartTracker_enabled := not_running
      btnStopTracker_enabled := running
      iconcomboProtocol_enabled := not_running
      iconcomboFilter_enabled := not_running
      iconcomboTrackerSource_enabled := not_running
      video_frame_label_visible := not_running || inertialp } }).log
    (.update_button_state running inertialp)

/-- `b->save();` -/
def settings_save (s : FaceTrackNoIR) : FaceTrackNoIR :=
  s.log .settings_save

/-- `FaceTrackNoIR::loadSettings`: `b->reload(); load_mappings();` -/
def loadSettings (s : FaceTrackNoIR) : FaceTrackNoIR :=
  (s.log .settings_reload).log .load_mappings

/-- `FaceTrackNoIR::bindKeyboardShortcuts`:
`if (work) work->sc = std::make_shared<Shortcuts>();` -/
def bindKeyboardShortcuts (s : FaceTrackNoIR) : FaceTrackNoIR :=
  if s.work.isSome then s.log .shortcuts_rebind else s

/-- `work = nullptr;` -/
def work_reset (s : FaceTrackNoIR) : FaceTrackNoIR :=
  ({ s with work := none }).log .work_reset

/-- `libs = SelectedLibraries(ui.video_frame, current_tracker(), current_protocol(),
current_filter());` -/
def libs_assign_selected (built : SelectedLibraries) (s : FaceTrackNoIR) : FaceTrackNoIR :=
  ({ s with libs := built }).log (.libs_ctor s.libs built)

/-- `libs = SelectedLibraries();` -/
def libs_reset (s : FaceTrackNoIR) : FaceTrackNoIR :=
  ({ s with libs := SelectedLibraries.empty }).log .libs_reset

/-- `work = std::make_shared<Work>(s, pose, libs, this);` -/
def work_make (s : FaceTrackNoIR) : FaceTrackNoIR :=
  ({ s with work := some { libs := s.libs } }).log (.work_make s.libs)

/-- `FaceTrackNoIR::display_pose(p, p)` with `p` the all-zero pose. -/
def display_pose_zero (s : FaceTrackNoIR) : FaceTrackNoIR :=
  let s1 := s.log .rotateBy_zero
  let s2 := if s1.mapping_widget then s1.log .mapping_widget_update else s1
  s2.log .lcd_display_zero

/-- `QMessageBox::warning(this, title, text, QMessageBox::Ok, QMessageBox::NoButton);` -/
def warning (title text : String) (s : FaceTrackNoIR) : FaceTrackNoIR :=
  s.log (.warning title text)

/-- The `#if defined(_WIN32)` block of `startTracker`; `win32` says whether the
build has it. -/
def keybinding_worker_start (win32 : Bool) (s : FaceTrackNoIR) : FaceTrackNoIR :=
  if win32 then ({ s with keybindingWorker := true }).log .keybinding_worker_start else s

/-- The `#if defined(_WIN32)` block of `stopTracker`: `if (keybindingWorker) ...`;
without `_WIN32` the member is never set. -/
def keybinding_worker_quit (s : FaceTrackNoIR) : FaceTrackNoIR :=
  if s.keybindingWorker then
    ({ s with keybindingWorker := false }).log .keybinding_worker_quit
  else s

/-- `ui.video_frame->show();` -/
def video_frame_show (s : FaceTrackNoIR) : FaceTrackNoIR :=
  ({ s with ui := { s.ui with video_frame_visible := true } }).log .video_frame_show

/-- `timUpdateHeadPose.start(msec);` -/
def timer_start (msec : Nat) (s : FaceTrackNoIR) : FaceTrackNoIR :=
  ({ s with timUpdateHeadPose := { active := true, interval := msec } }).log (.timer_start msec)

/-- `timUpdateHeadPose.stop();` -/
def timer_stop (s : FaceTrackNoIR) : FaceTrackNoIR :=
  ({ s with timUpdateHeadPose := { s.timUpdateHeadPose with active := false } }).log .timer_stop

/-- `ui.game_name->setText(text);` -/
def game_name_setText (text : String) (s : FaceTrackNoIR) : FaceTrackNoIR :=
  ({ s with ui := { s.ui with game_name := text } }).log (.game_name_setText text)

/-- `ui.pose_display->rotateBy(0, 0, 0);` -/
def rotateBy_zero (s : FaceTrackNoIR) : FaceTrackNoIR :=
  s.log .rotateBy_zero

/-- `if (pTrackerDialog) { pTrackerDialog->unregister_tracker(); pTrackerDialog = nullptr; }` -/
def close_tracker_dialog (s : FaceTrackNoIR) : FaceTrackNoIR :=
  if s.pTrackerDialog.isSome then ({ s with pTrackerDialog := none }).log .unregister_tracker
  else s

/-- `if (pProtocolDialog) { pProtocolDialog->unregister_protocol(); pProtocolDialog = nullptr; }` -/
def close_protocol_dialog (s : FaceTrackNoIR) : FaceTrackNoIR :=
  if s.pProtocolDialog.isSome then ({ s with pProtocolDialog := none }).log .unregister_protocol
  else s

/-- `if (pFilterDialog) { pFilterDialog->unregisterFilter(); pFilterDialog = nullptr; }` -/
def close_filter_dialog (s : FaceTrackNoIR) : FaceTrackNoIR :=
  if s.pFilterDialog.isSome then ({ s with pFilterDialog := none }).log .unregisterFilter
  else s

/-- The statements of `FaceTrackNoIR::startTracker` up to the test of
`libs.correct`. -/
def startTracker_head (built : SelectedLibraries) : List (FaceTrackNoIR → FaceTrackNoIR) :=
  [ settings_save,
    loadSettings,
    bindKeyboardShortcuts,
    work_reset,
    libs_assign_selected built,
    work_make,
    display_pose_zero ]

/-- The statements of `FaceTrackNoIR::startTracker` after the test of
`libs.correct`. -/
def startTracker_tail (win32 is_inertial : Bool) : List (FaceTrackNoIR → FaceTrackNoIR) :=
  [ keybinding_worker_start win32,
    video_frame_show,
    timer_start 50,
    updateButtonState true is_inertial ]

/-- `FaceTrackNoIR::startTracker`; `win32` says whether the build defines
`_WIN32`. -/
def startTracker (win32 : Bool) (e : StartEnv) (s : FaceTrackNoIR) : FaceTrackNoIR :=
  let s1 := run (startTracker_head e.built) s
  if !s1.libs.correct then
    warning "Library load error" "One of libraries failed to load. Check installation." s1
  else
    run (startTracker_tail win32 e.is_inertial) s1

/-- The statements of `FaceTrackNoIR::stopTracker`. -/
def stopTracker_body : List (FaceTrackNoIR → FaceTrackNoIR) :=
  [ game_name_setText "Not connected",
    keybinding_worker_quit,
    timer_stop,
    rotateBy_zero,
    close_tracker_dialog,
    close_protocol_dialog,
    close_filter_dialog,
    work_reset,
    libs_reset,
    display_pose_zero,
    updateButtonState false false ]

/-- `FaceTrackNoIR::stopTracker`. -/
def stopTracker (s : FaceTrackNoIR) : FaceTrackNoIR :=
  run stopTracker_body s

/-- The window after the first `k` statements of `FaceTrackNoIR::stopTracker`. -/
def stopTracker_upto (k : Nat) (s : FaceTrackNoIR) : FaceTrackNoIR :=
  run (stopTracker_body.take k) s

/-- `FaceTrackNoIR::shortcutRecentered`:
`qDebug() << "Center"; if (work) work->tracker->center();` -/
def shortcutRecentered (s : FaceTrackNoIR) : FtnHandled :=
  { debug := "Center"
    window :=
      match s.work with
      | some w => s.log (.tracker_center w)
      | none => s }

/-- `FaceTrackNoIR::shortcutToggled`:
`qDebug() << "Toggle"; if (work) work->tracker->toggle_enabled();` -/
def shortcutToggled (s : FaceTrackNoIR) : FtnHandled :=
  { debug := "Toggle"
    window :=
      match s.work with
      | some w => s.log (.tracker_toggle_enabled w)
      | none => s }

/-- A window of `FaceTrackNoIR` with no session: null `work`, default-constructed
`libs`, idle timer, no dialog, and the widgets as `updateButtonState(false,
false)` leaves them. -/
def idle : FaceTrackNoIR :=
  { work := none
    libs := SelectedLibraries.empty
    timUpdateHeadPose := { active := false, interval := 0 }
    pTrackerDialog := none
    pProtocolDialog := none
    pFilterDialog := none
    mapping_widget := false
    keybindingWorker := false
    ui :=
      { iconcomboProfile_enabled := true
        btnStartTracker_enabled := true
        btnStopTracker_enabled := false
        iconcomboProtocol_enabled := true
        iconcomboFilter_enabled := true
        iconcomboTrackerSource_enabled := true
        video_frame_label_visible := true
        video_frame_visible := false
        game_name := "" }
    trace := [] }

end FaceTrackNoIR

/-- A second set of libraries that loaded: tracker 4, filter 5, protocol 6. -/
def sampleLibs2 : SelectedLibraries :=
  { pTracker := some ⟨4⟩, pFilter := some ⟨5⟩, pProtocol := some ⟨6⟩, correct := true }

/-- A start in which the second set of libraries loads. -/
def sampleEnv2 : StartEnv := { built := sampleLibs2, is_inertial := false }

/-- A window of `FaceTrackNoIR` with a running session built from `sampleLibs`. -/
def sampleFtnRunning : FaceTrackNoIR := FaceTrackNoIR.startTracker false sampleEnv FaceTrackNoIR.idle

/-! ## The filter selector of `FaceTrackNoIR` -/

/-- `QList<ptr<dylib>>::value(i, nullptr)` of Qt: the entry at index `i`, and the
null pointer when `i` is out of bounds. -/
def QList_value (l : List (Option Dylib)) (i : Int) : Option Dylib :=
  if 0 ≤ i then (l.get? i.toNat).join else none

/-- A module combobox while it is filled: the texts of its items, in order, and
whether filling it dereferenced a null descriptor pointer. -/
structure Selector where
  items : List String
  null_dereferenced : Bool
deriving DecidableEq, Repr

/-- The loop `for (auto x : list) combo->addItem(x->icon, x->name);`. A null `x`
is dereferenced by `x->icon`; the loop is cut there, as nothing is defined
afterwards. -/
def addItems : List (Option Dylib) → Selector → Selector
  | [], c => c
  | some x :: rest, c => addItems rest { c with items := c.items ++ [x.name] }
  | none :: _, c => { c with null_dereferenced := true }

/-- The filter descriptors and the filter selector after the constructor. -/
structure FilterSelector where
  filters : List (Option Dylib)
  iconcomboFilter : Selector
deriving DecidableEq, Repr

/-- The filter part of the constructor `FaceTrackNoIR::FaceTrackNoIR`, on the
list `modules.filters()` as the registry delivers it:
`modules.filters().push_back(nullptr); ui.iconcomboFilter->addItem(QIcon(), "");`
and then `for (auto x : modules.filters()) ui.iconcomboFilter->addItem(x->icon,
x->name);`. -/
def FaceTrackNoIR.fill_filter_selector (filters : List (Option Dylib)) : FilterSelector :=
  let filters1 := filters ++ [none]
  let combo : Selector := { items := [""], null_dereferenced := false }
  { filters := filters1, iconcomboFilter := addItems filters1 combo }

/-- `FaceTrackNoIR::showFilterControls`, with `filters` the list
`modules.filters()` and `currentIndex` the value of
`ui.iconcomboFilter->currentIndex()`. The factory `lib->Dialog` is called
without a test: the result is `none` when the descriptor has none. -/
def FaceTrackNoIR.showFilterControls (filters : List (Option Dylib)) (currentIndex : Int)
    (s : FaceTrackNoIR) : Option FaceTrackNoIR :=
  match QList_value filters currentIndex with
  | some lib =>
    if lib.has_Dialog then
      some (({ s with
        pFilterDialog := some { visible := true, registered := s.libs.pFilter } }).log
        (.registerFilter s.libs.pFilter))
    else none
  | none => some s

/-- A second module descriptor with a settings dialog. -/
def sampleDylib2 : Dylib := { name := "EWMA", icon := ":/images/filter-16.png", has_Dialog := true }

/-! ## The order of destruction -/

/-- The three kinds of capability. -/
inductive Capability where
  | tracker
  | filter
  | protocol
deriving DecidableEq, Repr

/-- Modelled from the spec: the order in which a `SelectedLibraries` value gives
up its three instances when it is overwritten or destroyed is decided by the
struct `SelectedLibraries`, which is not among the sources. By the spec the
"destruction order is protocol, then filter, then tracker". -/
def SelectedLibraries.teardown (l : SelectedLibraries) : List (Capability × Instance) :=
  (l.pProtocol.map (fun i => (Capability.protocol, i))).toList ++
  (l.pFilter.map (fun i => (Capability.filter, i))).toList ++
  (l.pTracker.map (fun i => (Capability.tracker, i))).toList

/-- The instances destroyed by a statement that finds `libs` holding `before`
and leaves it holding `after`: those `before` holds and `after` does not, in
the order of `SelectedLibraries.teardown`. -/
def destroyed_between (before after : SelectedLibraries) : List (Capability × Instance) :=
  before.teardown.filter (fun x => !after.teardown.contains x)

/-- The instances destroyed during `MainWindow::stopTracker`, in order: what each
statement of the body destroys, one statement after the other. -/
def stopTracker_destroyed (s : MainWindow) : List (Capability × Instance) :=
  if s.work.isNone then []
  else
    (List.range stopTracker_body.length).flatMap
      (fun k => destroyed_between (stopTracker_upto k s).libs (stopTracker_upto (k + 1) s).libs)

/-- The instances destroyed during `FaceTrackNoIR::stopTracker`, in order. -/
def FaceTrackNoIR.stopTracker_destroyed (s : FaceTrackNoIR) : List (Capability × Instance) :=
  (List.range FaceTrackNoIR.stopTracker_body.length).flatMap
    (fun k =>
      destroyed_between (FaceTrackNoIR.stopTracker_upto k s).libs
        (FaceTrackNoIR.stopTracker_upto (k + 1) s).libs)

/-! ## Handlers that wait in a warning box

`QMessageBox::warning` is modal: the handler that calls it waits in a nested
event loop of Qt until the box is closed, and that loop delivers the queued
control events and the timeout of `det_timer` in the meantime. `step` above
runs every handler to its end; here a handler stops where it opens a box, other
handlers run, and the rest of the handler runs when the box is closed. -/

/-- What is left to run of a handler that waits in a warning box. -/
inductive Pending where
  /-- `startTracker` waits in the "Library load error" box (after `if
  (!libs.correct)`); left to run: `libs = SelectedLibraries(); return;`. -/
  | library_load_error
  /-- `maybe_start_profile_from_executable` waits, inside `setCurrentText`,
  `profile_selected`, `set_profile` and `warn_on_config_not_writable`, in the
  "Something went wrong" box; left to run: `set_title();`,
  `refresh_all_bundles();` and then `startTracker();`, for which the
  environment will decide `e`. -/
  | config_not_writable (e : StartEnv)
deriving DecidableEq, Repr

/-- The window together with the handlers that wait in a warning box, the
innermost box first. -/
structure EventLoop where
  window : MainWindow
  pending : List Pending
deriving DecidableEq, Repr

/-- `MainWindow::startTracker` up to its end, or up to the call of
`QMessageBox::warning` when the libraries are not `correct`. -/
def startTracker_until_box (e : StartEnv) (c : EventLoop) : EventLoop :=
  if c.window.work.isSome then c
  else
    let s1 := display_pose_zero (libs_assign_selected e.built (work_reset c.window))
    if !s1.libs.correct then
      { window :=
          warning "Library load error" "One of libraries failed to load. Check installation." s1
        pending := Pending.library_load_error :: c.pending }
    else
      { c with window := run (startTracker_tail e.is_inertial) s1 }

/-- `MainWindow::maybe_start_profile_from_executable` up to its end, or up to the
first warning box it opens. -/
def maybe_start_until_box (d : DetectorPoll) (p : ProfileStore) (e : StartEnv)
    (c : EventLoop) : EventLoop :=
  if c.window.work.isNone then
    match d.config_to_start with
    | some prof =>
      let s0 := c.window.log (.profile_set_current_text prof)
      if p.switches then
        let s1 := (save_modules s0).log (.set_profile prof)
        if p.writable then
          startTracker_until_box e
            { c with window := (set_title none s1).log .refresh_all_bundles }
        else
          { window :=
              warning "Something went wrong"
                "Check permissions and ownership for your .ini file!" s1
            pending := Pending.config_not_writable e :: c.pending }
      else
        startTracker_until_box e { c with window := s0 }
    | none => c
  else
    if d.should_stop then { c with window := stopTracker c.window } else c

/-- The innermost warning box is closed: the handler that waited in it runs on,
to its end or to the next box. -/
def box_closed (c : EventLoop) : EventLoop :=
  match c.pending with
  | [] => c
  | Pending.library_load_error :: rest => { window := libs_reset c.window, pending := rest }
  | Pending.config_not_writable e :: rest =>
    startTracker_until_box e
      { window := (set_title none c.window).log .refresh_all_bundles, pending := rest }

/-- What the event loop delivers: a lifecycle event, whose handler starts, or
the click that closes the innermost warning box. -/
inductive LoopEvent where
  | handler (ev : Event)
  | box_ok
deriving DecidableEq, Repr

/-- One delivery of the event loop. -/
def loop_step (c : EventLoop) : LoopEvent → EventLoop
  | .handler (.start e) => startTracker_until_box e c
  | .handler .stop => { c with window := stopTracker c.window }
  | .handler (.toggle e) =>
    if c.window.work.isSome then { c with window := stopTracker c.window }
    else startTracker_until_box e c
  | .handler (.restart e) => startTracker_until_box e { c with window := stopTracker c.window }
  | .handler (.maybe_start d p e) => maybe_start_until_box d p e c
  | .box_ok => box_closed c

/-- The event loop after a finite sequence of deliveries from `c`. -/
def loop_steps (c : EventLoop) (evs : List LoopEvent) : EventLoop :=
  evs.foldl loop_step c

/-- The event loop when the constructor returns: the initial window, no box. -/
def EventLoop.init : EventLoop := { window := MainWindow.init, pending := [] }

/-- An event loop reachable from the initial one by deliveries, handlers that
wait in a warning box included. -/
def LoopReachable (c : EventLoop) : Prop :=
  ∃ evs : List LoopEvent, loop_steps EventLoop.init evs = c

/-- What re-entrant handlers leave of the lifecycle invariant: the pose timer
runs only while a session exists, and the widgets follow the session. -/
def LoopInv (s : MainWindow) : Prop :=
  (s.pose_update_timer.active = true → s.work.isSome = true) ∧ widgets_follow_session s

/-! ## Theorems -/

/-! ### The guarded statements as record updates -/

theorem unregister_tracker_dialog_eq (s : MainWindow) :
    unregister_tracker_dialog s =
      { s with
        pTrackerDialog := s.pTrackerDialog.map (fun d => { d with registered := none })
        trace := s.trace ++ (if s.pTrackerDialog.isSome then [Effect.unregister_tracker] else []) } := by
  obtain ⟨w, l, t, td, pd, fd, ow, mw, ui, tr⟩ := s
  cases td <;> simp [unregister_tracker_dialog, MainWindow.log]

theorem unregister_protocol_dialog_eq (s : MainWindow) :
    unregister_protocol_dialog s =
      { s with
        pProtocolDialog := s.pProtocolDialog.map (fun d => { d with registered := none })
        trace := s.trace ++
          (if s.pProtocolDialog.isSome then [Effect.unregister_protocol] else []) } := by
  obtain ⟨w, l, t, td, pd, fd, ow, mw, ui, tr⟩ := s
  cases pd <;> simp [unregister_protocol_dialog, MainWindow.log]

theorem unregister_filter_dialog_eq (s : MainWindow) :
    unregister_filter_dialog s =
      { s with
        pFilterDialog := s.pFilterDialog.map (fun d => { d with registered := none })
        trace := s.trace ++ (if s.pFilterDialog.isSome then [Effect.unregister_filter] else []) } := by
  obtain ⟨w, l, t, td, pd, fd, ow, mw, ui, tr⟩ := s
  cases fd <;> simp [unregister_filter_dialog, MainWindow.log]

theorem options_update_widgets_states_eq (flag : Bool) (s : MainWindow) :
    options_update_widgets_states flag s =
      { s with
        options_widget := s.options_widget.map (fun _ => { tracking := flag })
        trace := s.trace ++
          (if s.options_widget.isSome then [Effect.update_widgets_states flag] else []) } := by
  obtain ⟨w, l, t, td, pd, fd, ow, mw, ui, tr⟩ := s
  cases ow <;> simp [options_update_widgets_states, MainWindow.log]

theorem mapping_widget_update_eq (s : MainWindow) :
    mapping_widget_update s =
      { s with
        trace := s.trace ++ (if s.mapping_widget then [Effect.mapping_widget_update] else []) } := by
  obtain ⟨w, l, t, td, pd, fd, ow, mw, ui, tr⟩ := s
  cases mw <;> simp [mapping_widget_update, MainWindow.log]

theorem register_tracker_dialog_eq (s : MainWindow) :
    register_tracker_dialog s =
      { s with
        pTrackerDialog := s.pTrackerDialog.map (fun d => { d with registered := s.libs.pTracker })
        trace := s.trace ++
          (if s.pTrackerDialog.isSome then [Effect.register_tracker s.libs.pTracker] else []) } := by
  obtain ⟨w, l, t, td, pd, fd, ow, mw, ui, tr⟩ := s
  cases td <;> simp [register_tracker_dialog, MainWindow.log]

theorem register_filter_dialog_eq (s : MainWindow) :
    register_filter_dialog s =
      { s with
        pFilterDialog := s.pFilterDialog.map (fun d => { d with registered := s.libs.pFilter })
        trace := s.trace ++
          (if s.pFilterDialog.isSome then [Effect.register_filter s.libs.pFilter] else []) } := by
  obtain ⟨w, l, t, td, pd, fd, ow, mw, ui, tr⟩ := s
  cases fd <;> simp [register_filter_dialog, MainWindow.log]

theorem register_protocol_dialog_eq (s : MainWindow) :
    register_protocol_dialog s =
      { s with
        pProtocolDialog :=
          s.pProtocolDialog.map (fun d => { d with registered := s.libs.pProtocol })
        trace := s.trace ++
          (if s.pProtocolDialog.isSome then [Effect.register_protocol s.libs.pProtocol]
            else []) } := by
  obtain ⟨w, l, t, td, pd, fd, ow, mw, ui, tr⟩ := s
  cases pd <;> simp [register_protocol_dialog, MainWindow.log]

/-! ### The invariant is kept by every step -/

theorem stopTracker_of_no_session (s : MainWindow) (h : s.work = none) : stopTracker s = s := by
  simp [stopTracker, h]

theorem stopTracker_work (s : MainWindow) : (stopTracker s).work = none := by
  obtain ⟨w, l, t, td, pd, fd, ow, mw, ui, tr⟩ := s
  cases w with
  | none => simp [stopTracker]
  | some w =>
    simp [stopTracker, stopTracker_body, run, pose_update_timer_stop, rotateBy_real_zero,
        unregister_tracker_dialog_eq, unregister_protocol_dialog_eq, unregister_filter_dialog_eq,
        save_modules, work_reset, libs_reset, display_pose_zero, mapping_widget_update_eq,
        set_title, updateButtonState, options_update_widgets_states_eq, set_focus, MainWindow.log]

theorem Inv_init : Inv MainWindow.init := by
  simp [Inv, MainWindow.init]

theorem stopTracker_session (s : MainWindow) (h : s.work.isSome = true) :
    (stopTracker s).libs = SelectedLibraries.empty ∧
    (stopTracker s).pose_update_timer.active = false ∧
    ∃ added, (stopTracker s).trace = s.trace ++ added ∧
      ∀ held built, Effect.libs_ctor held built ∉ added := by
  obtain ⟨w, l, t, td, pd, fd, ow, mw, ui, tr⟩ := s
  cases w with
  | none => simp at h
  | some w =>
    simp [stopTracker, stopTracker_body, run, pose_update_timer_stop, rotateBy_real_zero,
        unregister_tracker_dialog_eq, unregister_protocol_dialog_eq, unregister_filter_dialog_eq,
        save_modules, work_reset, libs_reset, display_pose_zero, mapping_widget_update_eq,
        set_title, updateButtonState, options_update_widgets_states_eq, set_focus, MainWindow.log]

theorem startTracker_no_session (e : StartEnv) (s : MainWindow) (h : s.work = none) :
    (startTracker e s).work = (if e.built.correct then some { libs := e.built } else none) ∧
    (startTracker e s).libs = (if e.built.correct then e.built else SelectedLibraries.empty) ∧
    (startTracker e s).pose_update_timer =
      (if e.built.correct then { active := true, interval := 50 } else s.pose_update_timer) ∧
    ∃ added, (startTracker e s).trace = s.trace ++ added ∧
      ∀ held built, Effect.libs_ctor held built ∈ added → held = s.libs := by
  obtain ⟨w, l, t, td, pd, fd, ow, mw, ui, tr⟩ := s
  simp only at h
  subst h
  obtain ⟨b, i⟩ := e
  obtain ⟨bt, bf, bp, bc⟩ := b
  cases bc <;>
    simp [startTracker, startTracker_tail, run, display_pose_zero, libs_assign_selected,
      work_reset, MainWindow.log, mapping_widget_update_eq, set_title, save_modules, work_make,
      work_reload_shortcuts, register_tracker_dialog_eq, register_filter_dialog_eq,
      register_protocol_dialog_eq, pose_update_timer_start, updateButtonState,
      options_update_widgets_states_eq, set_focus, warning, libs_reset]

theorem Inv_stopTracker (s : MainWindow) (h : Inv s) : Inv (stopTracker s) := by
  cases hw : s.work with
  | none => rw [stopTracker_of_no_session s hw]; exact h
  | some w =>
    have hs : s.work.isSome = true := by simp [hw]
    obtain ⟨hl, ht, added, htr, hno⟩ := stopTracker_session s hs
    refine ⟨fun _ => hl, ?_, ?_⟩
    · intro held built hm
      rw [htr, List.mem_append] at hm
      rcases hm with hm | hm
      · exact h.2.1 held built hm
      · exact absurd hm (hno held built)
    · intro hact
      rw [ht] at hact
      exact absurd hact (by decide)

theorem Inv_startTracker (e : StartEnv) (s : MainWindow) (h : Inv s) :
    Inv (startTracker e s) := by
  cases hw : s.work with
  | some w =>
    have hs : startTracker e s = s := by simp [startTracker, hw]
    rw [hs]; exact h
  | none =>
    obtain ⟨h1, h2, h3, added, htr, hheld⟩ := startTracker_no_session e s hw
    refine ⟨?_, ?_, ?_⟩
    · intro hnone
      rw [h2]
      cases hc : e.built.correct with
      | false => simp
      | true => rw [h1, hc] at hnone; simp at hnone
    · intro held built hm
      rw [htr, List.mem_append] at hm
      rcases hm with hm | hm
      · exact h.2.1 held built hm
      · rw [hheld held built hm]; exact h.1 hw
    · intro hact
      rw [h1, h2]
      cases hc : e.built.correct with
      | true => exact ⟨rfl, hc⟩
      | false =>
        rw [h3, hc] at hact
        have := (h.2.2 (by simpa using hact)).1
        rw [hw] at this
        simp at this

theorem Inv_log (ef : Effect) (s : MainWindow) (h : Inv s)
    (hne : ∀ held built, ef ≠ Effect.libs_ctor held built) : Inv (s.log ef) := by
  obtain ⟨h1, h2, h3⟩ := h
  refine ⟨h1, ?_, h3⟩
  intro held built hm
  simp only [MainWindow.log, List.mem_append, List.mem_singleton] at hm
  rcases hm with hm | hm
  · exact h2 held built hm
  · exact absurd hm.symm (hne held built)

theorem Inv_profile_set_current_text (p : ProfileStore) (prof : String) (s : MainWindow)
    (h : Inv s) : Inv (profile_set_current_text p prof s) := by
  have h0 : Inv (s.log (Effect.profile_set_current_text prof)) :=
    Inv_log _ s h (by intro _ _ hc; cases hc)
  unfold profile_set_current_text profile_selected
  split
  · simp only [set_title, save_modules, warning]
    apply Inv_log _ _ _ (by intro _ _ hc; cases hc)
    apply Inv_log _ _ _ (by intro _ _ hc; cases hc)
    split
    · apply Inv_log _ _ _ (by intro _ _ hc; cases hc)
      exact Inv_log _ _ h0 (by intro _ _ hc; cases hc)
    · apply Inv_log _ _ _ (by intro _ _ hc; cases hc)
      apply Inv_log _ _ _ (by intro _ _ hc; cases hc)
      exact Inv_log _ _ h0 (by intro _ _ hc; cases hc)
  · exact h0

theorem profile_set_current_text_work (p : ProfileStore) (prof : String) (s : MainWindow) :
    (profile_set_current_text p prof s).work = s.work := by
  cases hs : p.switches <;> cases hwr : p.writable <;>
    simp [profile_set_current_text, profile_selected, set_title, save_modules, warning,
      MainWindow.log, hs, hwr]

theorem Inv_step (s : MainWindow) (ev : Event) (h : Inv s) : Inv (step s ev) := by
  cases ev with
  | start e => exact Inv_startTracker e s h
  | stop => exact Inv_stopTracker s h
  | toggle e =>
    simp only [step, on_toggle_tracker]
    split
    · exact Inv_stopTracker s h
    · exact Inv_startTracker e s h
  | restart e => exact Inv_startTracker e _ (Inv_stopTracker s h)
  | maybe_start d p e =>
    simp only [step, maybe_start_profile_from_executable]
    split
    · split
      · exact Inv_startTracker e _ (Inv_profile_set_current_text p _ s h)
      · exact h
    · split
      · exact Inv_stopTracker s h
      · exact h

theorem Inv_steps (evs : List Event) (s : MainWindow) (h : Inv s) : Inv (steps s evs) := by
  induction evs generalizing s with
  | nil => exact h
  | cons ev evs ih => exact ih (step s ev) (Inv_step s ev h)

theorem Inv_of_Reachable (s : MainWindow) (h : Reachable s) : Inv s := by
  obtain ⟨evs, rfl⟩ := h
  exact Inv_steps evs _ Inv_init

/-- For runs in which every handler runs to its end before the next starts: in
every window so reached, `libs` holds a capability instance only if `work` is
non-null (without a session `libs` is empty), and every `SelectedLibraries`
constructor call made so far, or made by a further `startTracker`, ran while
the previous `libs` was empty. It does not hold when a handler is delivered
while another waits in the "Library load error" box. -/
theorem at_most_one_session (s : MainWindow) (h : Reachable s) :
    (s.libs.live = true → s.work.isSome = true) ∧
    (s.work = none → s.libs = SelectedLibraries.empty) ∧
    (∀ held built, Effect.libs_ctor held built ∈ s.trace →
      held = SelectedLibraries.empty ∧ held.live = false) ∧
    (∀ e held built, Effect.libs_ctor held built ∈ (startTracker e s).trace →
      held = SelectedLibraries.empty ∧ held.live = false) := by
  have hi := Inv_of_Reachable s h
  have hi2 : ∀ e, Inv (startTracker e s) := fun e => Inv_startTracker e s hi
  refine ⟨?_, hi.1, ?_, ?_⟩
  · intro hl
    cases hw : s.work with
    | some w => rfl
    | none =>
      rw [hi.1 hw] at hl
      simp [SelectedLibraries.live, SelectedLibraries.empty] at hl
  · intro held built hm
    have := hi.2.1 held built hm
    subst this
    exact ⟨rfl, rfl⟩
  · intro e held built hm
    have := (hi2 e).2.1 held built hm
    subst this
    exact ⟨rfl, rfl⟩

/-- An instance of the above: the window after a start, a restart, a toggle and a
failed start, each run to its end. -/
theorem at_most_one_session_witness :
    Reachable (steps MainWindow.init
      [Event.start sampleEnv, Event.restart sampleEnv, Event.toggle sampleEnv,
        Event.start sampleBrokenEnv]) ∧
    ((steps MainWindow.init
      [Event.start sampleEnv, Event.restart sampleEnv, Event.toggle sampleEnv,
        Event.start sampleBrokenEnv]).work = none →
      (steps MainWindow.init
        [Event.start sampleEnv, Event.restart sampleEnv, Event.toggle sampleEnv,
          Event.start sampleBrokenEnv]).libs = SelectedLibraries.empty) :=
  ⟨⟨_, rfl⟩, (at_most_one_session _ ⟨_, rfl⟩).2.1⟩

/-- C2: when a session exists (`work` is non-null) `startTracker` returns the
window it was given: `work`, `libs`, the pose timer, the dialogs and their
registrations, the widgets and the call log are all unchanged, so no
`SelectedLibraries` was constructed and no warning was shown. -/
theorem startTracker_session_exists_noop (e : StartEnv) (s : MainWindow)
    (h : s.work.isSome = true) :
    startTracker e s = s ∧ (startTracker e s).trace = s.trace := by
  have hs : startTracker e s = s := by simp [startTracker, h]
  exact ⟨hs, by rw [hs]⟩

/-- Witness of C2 on a window with a running session and three open dialogs. -/
theorem startTracker_session_exists_noop_witness :
    sampleRunning.work.isSome = true ∧
      startTracker sampleBrokenEnv sampleRunning = sampleRunning ∧
      (startTracker sampleBrokenEnv sampleRunning).trace = sampleRunning.trace :=
  ⟨by decide, startTracker_session_exists_noop sampleBrokenEnv sampleRunning (by decide)⟩

/-- C4: from a window with no session, when the constructed libraries come back
with `correct = true`, after `startTracker` the session exists and is built
from the new `libs`, `save_modules()` was called, every open tracker, filter
and protocol dialog is registered with the new instance of its kind, the pose
timer runs with a period of 50 ms, and the widgets are in the running state
(Start and the selectors disabled, Stop enabled and focused). -/
theorem startTracker_load_success (e : StartEnv) (s : MainWindow)
    (hw : s.work = none) (hc : e.built.correct = true) :
    (startTracker e s).work = some { libs := e.built } ∧
    (startTracker e s).libs = e.built ∧
    (∃ added, (startTracker e s).trace = s.trace ++ added ∧
      Effect.save_modules ∈ added ∧ Effect.work_make e.built ∈ added ∧
      Effect.timer_start 50 ∈ added ∧ (∀ title text, Effect.warning title text ∉ added)) ∧
    (startTracker e s).pTrackerDialog =
      s.pTrackerDialog.map (fun d => { d with registered := e.built.pTracker }) ∧
    (startTracker e s).pFilterDialog =
      s.pFilterDialog.map (fun d => { d with registered := e.built.pFilter }) ∧
    (startTracker e s).pProtocolDialog =
      s.pProtocolDialog.map (fun d => { d with registered := e.built.pProtocol }) ∧
    (startTracker e s).pose_update_timer = { active := true, interval := 50 } ∧
    (startTracker e s).ui =
      { s.ui.updateButtonState true e.is_inertial with focus := some FocusTarget.btnStopTracker } ∧
    (startTracker e s).ui.btnStartTracker_enabled = false ∧
    (startTracker e s).ui.btnStopTracker_enabled = true ∧
    (startTracker e s).ui.iconcomboProfile_enabled = false ∧
    (startTracker e s).ui.profile_button_enabled = false ∧
    (startTracker e s).ui.iconcomboTrackerSource_enabled = false ∧
    (startTracker e s).ui.iconcomboProtocol_enabled = false ∧
    (startTracker e s).ui.iconcomboFilter_enabled = false := by
  obtain ⟨w, l, t, td, pd, fd, ow, mw, ui, tr⟩ := s
  simp only at hw
  subst hw
  simp [startTracker, startTracker_tail, run, display_pose_zero, libs_assign_selected,
      work_reset, MainWindow.log, mapping_widget_update_eq, set_title, save_modules, work_make,
      work_reload_shortcuts, register_tracker_dialog_eq, register_filter_dialog_eq,
      register_protocol_dialog_eq, pose_update_timer_start, updateButtonState,
      options_update_widgets_states_eq, set_focus, Ui.updateButtonState, hc]

/-- Witness of C4: a successful start from the idle window with three open
dialogs. -/
theorem startTracker_load_success_witness :
    sampleIdle.work = none ∧ sampleEnv.built.correct = true ∧
      (startTracker sampleEnv sampleIdle).work = some { libs := sampleEnv.built } ∧
      (startTracker sampleEnv sampleIdle).pose_update_timer = { active := true, interval := 50 } :=
  have h := startTracker_load_success sampleEnv sampleIdle (by decide) (by decide)
  ⟨by decide, by decide, h.1, h.2.2.2.2.2.2.1⟩

/-- C5: the Toggle handler leaves exactly the window (state and call log) that
`stopTracker` leaves when a session exists, and exactly the window that
`startTracker` leaves when none exists; these are also the windows the Stop and
Start handlers leave. Its `qDebug()` line is "toggle tracker". -/
theorem on_toggle_tracker_stop_or_start (e : StartEnv) (s : MainWindow) :
    (s.work.isSome = true →
      (on_toggle_tracker e s).window = stopTracker s ∧
      (on_toggle_tracker e s).window = (on_stop_tracker s).window) ∧
    (s.work = none →
      (on_toggle_tracker e s).window = startTracker e s ∧
      (on_toggle_tracker e s).window = (on_start_tracker e s).window) ∧
    (on_toggle_tracker e s).debug = "toggle tracker" := by
  refine ⟨?_, ?_, rfl⟩
  · intro h
    simp [on_toggle_tracker, on_stop_tracker, h]
  · intro h
    simp [on_toggle_tracker, on_start_tracker, h]

/-- Witness of C5: Toggle on a running window stops it, Toggle on the idle
window starts it. -/
theorem on_toggle_tracker_stop_or_start_witness :
    (sampleRunning.work.isSome = true ∧
      (on_toggle_tracker sampleEnv sampleRunning).window = stopTracker sampleRunning) ∧
    (sampleIdle.work = none ∧
      (on_toggle_tracker sampleEnv sampleIdle).window = startTracker sampleEnv sampleIdle) :=
  ⟨⟨by decide,
      ((on_toggle_tracker_stop_or_start sampleEnv sampleRunning).1 (by decide)).1⟩,
    ⟨by decide,
      ((on_toggle_tracker_stop_or_start sampleEnv sampleIdle).2.1 (by decide)).1⟩⟩

/-- C6: the Restart handler leaves the window of `stopTracker` followed by
`startTracker`, and `startTracker` runs also when `stopTracker` was a no-op:
from a window with no session Restart leaves the window Start leaves. Whenever
the libraries load (`correct = true`), after Restart a session built from the
new libraries exists and the pose timer runs at 50 ms, whether or not a
session existed before. -/
theorem on_restart_tracker_stop_then_start (e : StartEnv) (s : MainWindow) :
    (on_restart_tracker e s).window = startTracker e (stopTracker s) ∧
    (s.work = none →
      stopTracker s = s ∧
      (on_restart_tracker e s).window = startTracker e s ∧
      (on_restart_tracker e s).window = (on_start_tracker e s).window) ∧
    (e.built.correct = true →
      (on_restart_tracker e s).window.work = some { libs := e.built } ∧
      (on_restart_tracker e s).window.work.isSome = true ∧
      (on_restart_tracker e s).window.libs = e.built ∧
      (on_restart_tracker e s).window.pose_update_timer = { active := true, interval := 50 }) := by
  refine ⟨rfl, ?_, ?_⟩
  · intro h
    have hs := stopTracker_of_no_session s h
    simp [on_restart_tracker, on_start_tracker, hs]
  · intro hc
    obtain ⟨h1, h2, h3, _⟩ := startTracker_no_session e (stopTracker s) (stopTracker_work s)
    simp only [on_restart_tracker]
    rw [h1, h2, h3]
    simp [hc]

/-- Witness of C6: Restart on a running window and on the idle window, with
libraries that load. -/
theorem on_restart_tracker_stop_then_start_witness :
    (sampleIdle.work = none ∧
      (on_restart_tracker sampleEnv sampleIdle).window = startTracker sampleEnv sampleIdle) ∧
    (sampleEnv.built.correct = true ∧
      (on_restart_tracker sampleEnv sampleRunning).window.work.isSome = true ∧
      (on_restart_tracker sampleEnv sampleRunning).window.pose_update_timer =
        { active := true, interval := 50 }) :=
  ⟨⟨by decide, ((on_restart_tracker_stop_then_start sampleEnv sampleIdle).2.1 (by decide)).2.1⟩,
    ⟨by decide,
      ((on_restart_tracker_stop_then_start sampleEnv sampleRunning).2.2 (by decide)).2.1,
      ((on_restart_tracker_stop_then_start sampleEnv sampleRunning).2.2 (by decide)).2.2.2⟩⟩

/-- C7: `stopTracker` returns the window unchanged (state and call log) when no
session exists, and it is idempotent: a second `stopTracker` returns the result
of the first unchanged. -/
theorem stopTracker_noop_and_idempotent (s : MainWindow) :
    (s.work = none → stopTracker s = s) ∧
    stopTracker (stopTracker s) = stopTracker s :=
  ⟨stopTracker_of_no_session s, stopTracker_of_no_session _ (stopTracker_work s)⟩

/-- Witness of C7 on the idle window. -/
theorem stopTracker_noop_and_idempotent_witness :
    sampleIdle.work = none ∧ stopTracker sampleIdle = sampleIdle :=
  ⟨by decide, (stopTracker_noop_and_idempotent sampleIdle).1 (by decide)⟩

/-- C8: from a window with no session, when the libraries load
(`correct = true`), `startTracker` followed at once by `stopTracker` leaves
`work` null, `libs` empty (no live tracker, filter or protocol instance), the
pose timer stopped, the widgets in the not-running state, and every open
settings dialog with no instance registered. -/
theorem start_then_stop_releases_all (e : StartEnv) (s : MainWindow)
    (hw : s.work = none) (hc : e.built.correct = true) :
    (stopTracker (startTracker e s)).work = none ∧
    (stopTracker (startTracker e s)).libs = SelectedLibraries.empty ∧
    (stopTracker (startTracker e s)).libs.live = false ∧
    (stopTracker (startTracker e s)).pose_update_timer.active = false ∧
    (stopTracker (startTracker e s)).ui =
      { s.ui.updateButtonState false false with focus := some FocusTarget.btnStartTracker } ∧
    (stopTracker (startTracker e s)).ui.btnStartTracker_enabled = true ∧
    (stopTracker (startTracker e s)).ui.btnStopTracker_enabled = false ∧
    (stopTracker (startTracker e s)).ui.iconcomboProfile_enabled = true ∧
    (stopTracker (startTracker e s)).pTrackerDialog =
      s.pTrackerDialog.map (fun d => { d with registered := none }) ∧
    (stopTracker (startTracker e s)).pProtocolDialog =
      s.pProtocolDialog.map (fun d => { d with registered := none }) ∧
    (stopTracker (startTracker e s)).pFilterDialog =
      s.pFilterDialog.map (fun d => { d with registered := none }) ∧
    dialogs_detached (stopTracker (startTracker e s)) := by
  obtain ⟨w, l, t, td, pd, fd, ow, mw, ui, tr⟩ := s
  simp only at hw
  subst hw
  simp [startTracker, startTracker_tail, run, display_pose_zero, libs_assign_selected,
      work_reset, MainWindow.log, mapping_widget_update_eq, set_title, save_modules, work_make,
      work_reload_shortcuts, register_tracker_dialog_eq, register_filter_dialog_eq,
      register_protocol_dialog_eq, pose_update_timer_start, updateButtonState,
      options_update_widgets_states_eq, set_focus, Ui.updateButtonState, hc,
      stopTracker, stopTracker_body, pose_update_timer_stop, rotateBy_real_zero,
      unregister_tracker_dialog_eq, unregister_protocol_dialog_eq, unregister_filter_dialog_eq,
      libs_reset, SelectedLibraries.live, SelectedLibraries.empty, dialogs_detached,
      Function.comp_def]

/-- Witness of C8: start then stop from the idle window with three open
dialogs. -/
theorem start_then_stop_releases_all_witness :
    sampleIdle.work = none ∧ sampleEnv.built.correct = true ∧
      (stopTracker (startTracker sampleEnv sampleIdle)).libs = SelectedLibraries.empty ∧
      dialogs_detached (stopTracker (startTracker sampleEnv sampleIdle)) :=
  have h := start_then_stop_releases_all sampleEnv sampleIdle (by decide) (by decide)
  ⟨by decide, by decide, h.2.1, h.2.2.2.2.2.2.2.2.2.2.2⟩

/-- For runs in which every handler runs to its end before the next starts: in
every window so reached, if the pose timer is active then `work` is non-null
and `libs.correct` holds, and the timer slot `showHeadPose` finds a session.
The part on `libs.correct` does not hold when a handler is delivered while
another waits in the "Library load error" box. -/
theorem pose_timer_active_has_session (s : MainWindow) (h : Reachable s)
    (ht : s.pose_update_timer.active = true) :
    s.work.isSome = true ∧ s.libs.correct = true ∧ (showHeadPose s).isSome = true := by
  obtain ⟨hw, hc⟩ := (Inv_of_Reachable s h).2.2 ht
  refine ⟨hw, hc, ?_⟩
  cases hs : s.work with
  | none => simp [hs] at hw
  | some w => simp [showHeadPose, hs]

/-- An instance of the above: the window after one successful start. -/
theorem pose_timer_active_has_session_witness :
    Reachable (steps MainWindow.init [Event.start sampleEnv]) ∧
      (steps MainWindow.init [Event.start sampleEnv]).pose_update_timer.active = true ∧
      (showHeadPose (steps MainWindow.init [Event.start sampleEnv])).isSome = true :=
  ⟨⟨_, rfl⟩, by decide, (pose_timer_active_has_session _ ⟨_, rfl⟩ (by decide)).2.2⟩

theorem stopTracker_upto_of_length_le (k : Nat) (s : MainWindow)
    (hk : stopTracker_body.length ≤ k) : stopTracker_upto k s = run stopTracker_body s := by
  rw [stopTracker_upto, List.take_of_length_le hk]

theorem stopTracker_upto_timer (s : MainWindow) (k : Nat) :
    stopTracker_upto k s = s ∨ (stopTracker_upto k s).pose_update_timer.active = false := by
  obtain hk | hk := Nat.lt_or_ge k 13
  · interval_cases k <;>
      simp [stopTracker_upto, stopTracker_body, run, pose_update_timer_stop,
        rotateBy_real_zero, unregister_tracker_dialog_eq, unregister_protocol_dialog_eq,
        unregister_filter_dialog_eq, save_modules, work_reset, libs_reset, display_pose_zero,
        mapping_widget_update_eq, set_title, updateButtonState, options_update_widgets_states_eq,
        set_focus, MainWindow.log]
  · right
    rw [stopTracker_upto_of_length_le k _ (by simpa [stopTracker_body] using hk)]
    simp [stopTracker_body, run, pose_update_timer_stop,
      rotateBy_real_zero, unregister_tracker_dialog_eq, unregister_protocol_dialog_eq,
      unregister_filter_dialog_eq, save_modules, work_reset, libs_reset, display_pose_zero,
      mapping_widget_update_eq, set_title, updateButtonState, options_update_widgets_states_eq,
      set_focus, MainWindow.log]

theorem stopTracker_upto_release (s : MainWindow) (k : Nat) :
    ((stopTracker_upto k s).work = s.work ∧ (stopTracker_upto k s).libs = s.libs) ∨
    ((stopTracker_upto k s).pose_update_timer.active = false ∧
      dialogs_detached (stopTracker_upto k s)) := by
  obtain hk | hk := Nat.lt_or_ge k 13
  · interval_cases k <;>
      simp [stopTracker_upto, stopTracker_body, run, pose_update_timer_stop,
        rotateBy_real_zero, unregister_tracker_dialog_eq, unregister_protocol_dialog_eq,
        unregister_filter_dialog_eq, save_modules, work_reset, libs_reset, display_pose_zero,
        mapping_widget_update_eq, set_title, updateButtonState, options_update_widgets_states_eq,
        set_focus, MainWindow.log, dialogs_detached]
  · right
    rw [stopTracker_upto_of_length_le k _ (by simpa [stopTracker_body] using hk)]
    simp [stopTracker_body, run, pose_update_timer_stop,
      rotateBy_real_zero, unregister_tracker_dialog_eq, unregister_protocol_dialog_eq,
      unregister_filter_dialog_eq, save_modules, work_reset, libs_reset, display_pose_zero,
      mapping_widget_update_eq, set_title, updateButtonState, options_update_widgets_states_eq,
      set_focus, MainWindow.log, dialogs_detached]

/-- C10: on a window with a session, `stopTracker` calls, in this order: the
timer stop, the three `unregister_*` of the open tracker, protocol and filter
dialogs, `save_modules()`, and only then `work = nullptr` and
`libs = SelectedLibraries()`. After any number of statements of its body,
either nothing has run yet or the pose timer is stopped; and either `work` and
`libs` are still the ones of the session, or the timer is stopped and every
open dialog has no instance registered. -/
theorem stopTracker_teardown_order (s : MainWindow) (h : s.work.isSome = true) :
    stopTracker s = stopTracker_upto stopTracker_body.length s ∧
    (stopTracker s).trace = s.trace ++
      ([Effect.timer_stop, Effect.rotateBy_real_zero] ++
        (if s.pTrackerDialog.isSome then [Effect.unregister_tracker] else []) ++
        (if s.pProtocolDialog.isSome then [Effect.unregister_protocol] else []) ++
        (if s.pFilterDialog.isSome then [Effect.unregister_filter] else []) ++
        [Effect.save_modules, Effect.work_reset, Effect.libs_reset, Effect.rotateBy_zero] ++
        (if s.mapping_widget then [Effect.mapping_widget_update] else []) ++
        [Effect.lcd_display_zero, Effect.set_title none,
          Effect.update_button_state false false] ++
        (if s.options_widget.isSome then [Effect.update_widgets_states false] else []) ++
        [Effect.set_title none, Effect.set_focus FocusTarget.btnStartTracker]) ∧
    (∀ k, stopTracker_upto k s = s ∨
      (stopTracker_upto k s).pose_update_timer.active = false) ∧
    (∀ k,
      ((stopTracker_upto k s).work = s.work ∧ (stopTracker_upto k s).libs = s.libs) ∨
      ((stopTracker_upto k s).pose_update_timer.active = false ∧
        dialogs_detached (stopTracker_upto k s))) := by
  have hn : s.work.isNone = false := by
    cases hw : s.work with
    | none => simp [hw] at h
    | some w => rfl
  refine ⟨?_, ?_, stopTracker_upto_timer s, stopTracker_upto_release s⟩
  · simp [stopTracker, stopTracker_upto, hn]
  · simp [stopTracker, hn, stopTracker_body, run, pose_update_timer_stop,
      rotateBy_real_zero, unregister_tracker_dialog_eq, unregister_protocol_dialog_eq,
      unregister_filter_dialog_eq, save_modules, work_reset, libs_reset, display_pose_zero,
      mapping_widget_update_eq, set_title, updateButtonState, options_update_widgets_states_eq,
      set_focus, MainWindow.log, SelectedLibraries.empty]

/-- Witness of C10: stopping the running window with three open dialogs. -/
theorem stopTracker_teardown_order_witness :
    sampleRunning.work.isSome = true ∧
      stopTracker sampleRunning = stopTracker_upto stopTracker_body.length sampleRunning ∧
      ∀ k,
        ((stopTracker_upto k sampleRunning).work = sampleRunning.work ∧
          (stopTracker_upto k sampleRunning).libs = sampleRunning.libs) ∨
        ((stopTracker_upto k sampleRunning).pose_update_timer.active = false ∧
          dialogs_detached (stopTracker_upto k sampleRunning)) :=
  have h := stopTracker_teardown_order sampleRunning (by decide)
  ⟨by decide, h.1, h.2.2.2⟩

/-! ### The widgets follow the session -/

theorem widgets_follow_session_init : widgets_follow_session MainWindow.init := by
  simp [widgets_follow_session, MainWindow.init, Ui.updateButtonState]

theorem widgets_follow_session_stopTracker (s : MainWindow) (h : widgets_follow_session s) :
    widgets_follow_session (stopTracker s) := by
  cases hw : s.work with
  | none => rw [stopTracker_of_no_session s hw]; exact h
  | some w =>
    obtain ⟨w0, l, t, td, pd, fd, ow, mw, ui, tr⟩ := s
    simp only at hw
    subst hw
    simp [widgets_follow_session, stopTracker, stopTracker_body, run, pose_update_timer_stop,
      rotateBy_real_zero, unregister_tracker_dialog_eq, unregister_protocol_dialog_eq,
      unregister_filter_dialog_eq, save_modules, work_reset, libs_reset, display_pose_zero,
      mapping_widget_update_eq, set_title, updateButtonState, Ui.updateButtonState,
      options_update_widgets_states_eq, set_focus, MainWindow.log]

theorem widgets_follow_session_startTracker (e : StartEnv) (s : MainWindow)
    (h : widgets_follow_session s) : widgets_follow_session (startTracker e s) := by
  cases hw : s.work with
  | some w =>
    have hs : startTracker e s = s := by simp [startTracker, hw]
    rw [hs]; exact h
  | none =>
    obtain ⟨w0, l, t, td, pd, fd, ow, mw, ui, tr⟩ := s
    simp only at hw
    subst hw
    obtain ⟨b, i⟩ := e
    obtain ⟨bt, bf, bp, bc⟩ := b
    cases bc
    · simpa [widgets_follow_session, startTracker, display_pose_zero, libs_assign_selected,
        work_reset, MainWindow.log, mapping_widget_update_eq, set_title, warning, libs_reset]
        using h
    · simp [widgets_follow_session, startTracker, startTracker_tail, run, display_pose_zero,
        libs_assign_selected, work_reset, MainWindow.log, mapping_widget_update_eq, set_title,
        save_modules, work_make, work_reload_shortcuts, register_tracker_dialog_eq,
        register_filter_dialog_eq, register_protocol_dialog_eq, pose_update_timer_start,
        updateButtonState, Ui.updateButtonState, options_update_widgets_states_eq, set_focus]

theorem widgets_follow_session_profile_set_current_text (p : ProfileStore) (prof : String)
    (s : MainWindow) (h : widgets_follow_session s) :
    widgets_follow_session (profile_set_current_text p prof s) := by
  cases hs : p.switches <;> cases hwr : p.writable <;>
    simpa [widgets_follow_session, profile_set_current_text, profile_selected, set_title,
      save_modules, warning, MainWindow.log, hs, hwr] using h

theorem widgets_follow_session_step (s : MainWindow) (ev : Event)
    (h : widgets_follow_session s) : widgets_follow_session (step s ev) := by
  cases ev with
  | start e => exact widgets_follow_session_startTracker e s h
  | stop => exact widgets_follow_session_stopTracker s h
  | toggle e =>
    simp only [step, on_toggle_tracker]
    split
    · exact widgets_follow_session_stopTracker s h
    · exact widgets_follow_session_startTracker e s h
  | restart e =>
    exact widgets_follow_session_startTracker e _ (widgets_follow_session_stopTracker s h)
  | maybe_start d p e =>
    simp only [step, maybe_start_profile_from_executable]
    split
    · split
      · exact widgets_follow_session_startTracker e _
          (widgets_follow_session_profile_set_current_text p _ s h)
      · exact h
    · split
      · exact widgets_follow_session_stopTracker s h
      · exact h

theorem widgets_follow_session_steps (evs : List Event) (s : MainWindow)
    (h : widgets_follow_session s) : widgets_follow_session (steps s evs) := by
  induction evs generalizing s with
  | nil => exact h
  | cons ev evs ih => exact ih (step s ev) (widgets_follow_session_step s ev h)

/-- C13: in every window reachable by Start, Stop, Toggle and Restart steps (and
by detector polls as well), the profile selector, the profile button and the
tracker, protocol and filter selectors are enabled exactly when `work` is null,
the Start button is enabled exactly when `work` is null and the Stop button
exactly when `work` is non-null; so with a session the profile selector is
disabled. -/
theorem selectors_enabled_iff_no_session (s : MainWindow) (h : Reachable s) :
    s.ui.iconcomboProfile_enabled = s.work.isNone ∧
    s.ui.profile_button_enabled = s.work.isNone ∧
    s.ui.iconcomboTrackerSource_enabled = s.work.isNone ∧
    s.ui.iconcomboProtocol_enabled = s.work.isNone ∧
    s.ui.iconcomboFilter_enabled = s.work.isNone ∧
    s.ui.btnStartTracker_enabled = s.work.isNone ∧
    s.ui.btnStopTracker_enabled = s.work.isSome ∧
    (s.work.isSome = true →
      s.ui.iconcomboProfile_enabled = false ∧ s.ui.profile_button_enabled = false) := by
  obtain ⟨evs, rfl⟩ := h
  have hi := widgets_follow_session_steps evs _ widgets_follow_session_init
  obtain ⟨h1, h2, h3, h4, h5, h6, h7⟩ := hi
  refine ⟨h1, h2, h3, h4, h5, h6, h7, ?_⟩
  intro hw
  rw [h1, h2]
  cases hs : (steps MainWindow.init evs).work with
  | none => simp [hs] at hw
  | some w => exact ⟨rfl, rfl⟩

/-- Witness of C13: the window after a start, a stop, a toggle and a restart with
libraries that load has a session and a disabled profile selector. -/
theorem selectors_enabled_iff_no_session_witness :
    Reachable (steps MainWindow.init
      [Event.start sampleEnv, Event.stop, Event.toggle sampleEnv, Event.restart sampleEnv]) ∧
    (steps MainWindow.init
      [Event.start sampleEnv, Event.stop, Event.toggle sampleEnv,
        Event.restart sampleEnv]).work.isSome = true ∧
    (steps MainWindow.init
      [Event.start sampleEnv, Event.stop, Event.toggle sampleEnv,
        Event.restart sampleEnv]).ui.iconcomboProfile_enabled = false :=
  ⟨⟨_, rfl⟩, by decide,
    ((selectors_enabled_iff_no_session _ ⟨_, rfl⟩).2.2.2.2.2.2.2 (by decide)).1⟩

/-! ### Settings dialogs -/

theorem mk_dialog_eq (lib : Option Dylib) (orig : Option Dialog) :
    mk_dialog lib orig =
      if dialog_visible orig then (false, orig)
      else if lib.any (fun l => l.has_Dialog) then
        (true, some { visible := true, registered := none })
      else (false, orig) := by
  cases orig <;> cases lib <;> simp [mk_dialog, dialog_visible]

/-- Counterexample to C17 as stated: in the initial window no session exists and
`libs` holds no tracker, protocol or filter instance, and yet each of the three
functions creates a dialog and shows it. -/
theorem show_settings_without_session :
    MainWindow.init.work = none ∧ MainWindow.init.libs.live = false ∧
    (showTrackerSettings (some sampleDylib) MainWindow.init).pTrackerDialog =
      some { visible := true, registered := none } ∧
    (showProtocolSettings (some sampleDylib) MainWindow.init).pProtocolDialog =
      some { visible := true, registered := none } ∧
    (showFilterSettings (some sampleDylib) MainWindow.init).pFilterDialog =
      some { visible := true, registered := none } := by
  decide

/-- C17, amended: `showTrackerSettings`, `showProtocolSettings` and
`showFilterSettings` create and show the settings dialog of the selected module
whenever no dialog of that kind is visible already and the module has a dialog
factory, with or without a session; the new dialog is registered with the
instance of its kind that `libs` holds, and stays unregistered (no `register_*`
call) when `libs` holds none. When a dialog of the kind is visible already, or
the module has no dialog factory, the window is left as it is. Session, `libs`
and pose timer are never touched. -/
theorem show_settings_dialog (lib : Option Dylib) (s : MainWindow) :
    (dialog_visible s.pTrackerDialog = false → lib.any (fun l => l.has_Dialog) = true →
      showTrackerSettings lib s =
        { s with
          pTrackerDialog := some { visible := true, registered := s.libs.pTracker }
          trace := s.trace ++
            (if s.libs.pTracker.isSome then [Effect.register_tracker s.libs.pTracker] else []) }) ∧
    (dialog_visible s.pProtocolDialog = false → lib.any (fun l => l.has_Dialog) = true →
      showProtocolSettings lib s =
        { s with
          pProtocolDialog := some { visible := true, registered := s.libs.pProtocol }
          trace := s.trace ++
            (if s.libs.pProtocol.isSome then [Effect.register_protocol s.libs.pProtocol]
              else []) }) ∧
    (dialog_visible s.pFilterDialog = false → lib.any (fun l => l.has_Dialog) = true →
      showFilterSettings lib s =
        { s with
          pFilterDialog := some { visible := true, registered := s.libs.pFilter }
          trace := s.trace ++
            (if s.libs.pFilter.isSome then [Effect.register_filter s.libs.pFilter] else []) }) ∧
    (dialog_visible s.pTrackerDialog = true ∨ lib.any (fun l => l.has_Dialog) = false →
      showTrackerSettings lib s = s) ∧
    (dialog_visible s.pProtocolDialog = true ∨ lib.any (fun l => l.has_Dialog) = false →
      showProtocolSettings lib s = s) ∧
    (dialog_visible s.pFilterDialog = true ∨ lib.any (fun l => l.has_Dialog) = false →
      showFilterSettings lib s = s) ∧
    (showTrackerSettings lib s).work = s.work ∧ (showTrackerSettings lib s).libs = s.libs ∧
    (showProtocolSettings lib s).work = s.work ∧ (showProtocolSettings lib s).libs = s.libs ∧
    (showFilterSettings lib s).work = s.work ∧ (showFilterSettings lib s).libs = s.libs := by
  obtain ⟨w, l, t, td, pd, fd, ow, mw, ui, tr⟩ := s
  obtain ⟨lt, lf, lp, lc⟩ := l
  refine ⟨?_, ?_, ?_, ?_, ?_, ?_, ?_, ?_, ?_, ?_, ?_, ?_⟩
  · intro hv hl
    cases lt <;>
      simp [showTrackerSettings, mk_dialog_eq, hv, hl, register_tracker_dialog_eq]
  · intro hv hl
    cases lp <;>
      simp [showProtocolSettings, mk_dialog_eq, hv, hl, register_protocol_dialog_eq]
  · intro hv hl
    cases lf <;>
      simp [showFilterSettings, mk_dialog_eq, hv, hl, register_filter_dialog_eq]
  · rintro (hv | hl) <;> simp [showTrackerSettings, mk_dialog_eq, *]
  · rintro (hv | hl) <;> simp [showProtocolSettings, mk_dialog_eq, *]
  · rintro (hv | hl) <;> simp [showFilterSettings, mk_dialog_eq, *]
  all_goals
    cases hv : dialog_visible td <;> cases hv2 : dialog_visible pd <;>
      cases hv3 : dialog_visible fd <;> cases hl : lib.any (fun l => l.has_Dialog) <;>
      simp [showTrackerSettings, showProtocolSettings, showFilterSettings, mk_dialog_eq, hv, hv2,
        hv3, hl, register_tracker_dialog_eq, register_protocol_dialog_eq,
        register_filter_dialog_eq] <;>
      split <;> rfl

/-! ### The tray menu header -/

/-- Counterexample to C19 as stated: the version string "opentrack-DEBUG" ends
with "-DEBUG", and its header is "opentrack DEBUG", not the string with that
suffix replaced by " (debug)". -/
theorem display_name_opentrack_DEBUG :
    endsWith "-DEBUG".toList "opentrack-DEBUG".toList = true ∧
    init_tray_menu_display_name "opentrack-DEBUG".toList = "opentrack DEBUG".toList ∧
    init_tray_menu_display_name "opentrack-DEBUG".toList ≠ "opentrack (debug)".toList ∧
    ¬ " (debug)".toList <:+ init_tray_menu_display_name "opentrack-DEBUG".toList := by
  decide

theorem QString_replace_at_suffix (t suf after : List Char) :
    QString_replace ((t ++ suf).length - suf.length) (t ++ suf).length after (t ++ suf) =
      t ++ after := by
  have h1 : (t ++ suf).length - suf.length = t.length := by simp
  rw [h1]
  have h2 : ¬ (t ++ suf).length < t.length := by simp
  have h3 : (t ++ suf).drop (t.length + (t ++ suf).length) = [] := by
    apply List.drop_eq_nil_of_le
    omega
  simp only [QString_replace, h2, if_false, h3, List.append_nil, List.take_left']

theorem replace_DEBUG_suffix (d : List Char) (h : "-DEBUG".toList <:+ d) :
    QString_replace (d.length - 6) d.length " (debug)".toList d =
      d.take (d.length - 6) ++ " (debug)".toList := by
  obtain ⟨t, rfl⟩ := h
  have := QString_replace_at_suffix t "-DEBUG".toList " (debug)".toList
  have hl : "-DEBUG".toList.length = 6 := by decide
  rw [hl] at this
  rw [this]
  have h1 : (t ++ "-DEBUG".toList).length - 6 = t.length := by simp [hl]
  rw [h1]
  simp

theorem endsWith_DEBUG_after_opentrack (rest : List Char) :
    endsWith "-DEBUG".toList ("opentrack ".toList ++ rest) = endsWith "-DEBUG".toList rest := by
  by_cases hlen : 6 ≤ rest.length
  · rw [Bool.eq_iff_iff]
    simp only [endsWith, List.isSuffixOf_iff_suffix]
    constructor
    · intro h
      exact List.suffix_of_suffix_length_le h (List.suffix_append _ _) (by simpa using hlen)
    · intro h
      exact h.trans (List.suffix_append _ _)
  · have hlt : rest.length < 6 := by omega
    rcases rest with _ | ⟨a, _ | ⟨b, _ | ⟨c, _ | ⟨d, _ | ⟨e, _ | ⟨f, r⟩⟩⟩⟩⟩⟩
    all_goals first
      | (simp at hlt; omega)
      | (rw [Bool.eq_iff_iff]
         simp only [endsWith, List.isSuffixOf_iff_suffix, List.suffix_iff_eq_drop]
         simp
         try decide)

theorem display_name_opentrack (rest : List Char) :
    init_tray_menu_display_name ("opentrack-".toList ++ rest) =
      if endsWith "-DEBUG".toList rest then
        "opentrack ".toList ++ rest.take (rest.length - 6) ++ " (debug)".toList
      else "opentrack ".toList ++ rest := by
  have hp : startsWith "opentrack-".toList ("opentrack-".toList ++ rest) = true := by
    simp [startsWith]
  have hr : QString_replace (10 - 1) 1 [' '] ("opentrack-".toList ++ rest) =
      "opentrack ".toList ++ rest := by
    simp [QString_replace]
  simp only [init_tray_menu_display_name, hp, if_true, hr, endsWith_DEBUG_after_opentrack]
  split
  · rename_i h
    have hs : "-DEBUG".toList <:+ rest := by simpa [endsWith] using h
    rw [replace_DEBUG_suffix _ (hs.trans (List.suffix_append _ _))]
    obtain ⟨t, rfl⟩ := hs
    have hl : "-DEBUG".toList.length = 6 := by decide
    have h1 : ("opentrack ".toList ++ (t ++ "-DEBUG".toList)).length - 6 =
        ("opentrack ".toList ++ t).length := by
      simp [hl]
    have h2 : (t ++ "-DEBUG".toList).length - 6 = t.length := by simp [hl]
    rw [h1, h2, ← List.append_assoc, List.take_left' rfl, List.take_left' rfl]
  · rfl

/-- C19, amended: for every version string the header is made in two steps, the
second on the result of the first. If `v` starts with "opentrack-" the header
starts with "opentrack " (that one hyphen replaced by a space) and goes on with
the rest of `v`, in which a "-DEBUG" at the end is replaced by " (debug)"; if
`v` does not start with "opentrack-" and ends with "-DEBUG" the header is `v`
with that suffix replaced by " (debug)"; a `v` with neither is shown unchanged.
So "opentrack-2.3.1-DEBUG" gives "opentrack 2.3.1 (debug)", and
"opentrack-DEBUG", whose hyphen belongs to both, gives "opentrack DEBUG". -/
theorem display_name_two_steps (v : List Char) :
    (∀ rest, v = "opentrack-".toList ++ rest →
      "opentrack ".toList <+: init_tray_menu_display_name v ∧
      init_tray_menu_display_name v =
        if endsWith "-DEBUG".toList rest then
          "opentrack ".toList ++ rest.take (rest.length - 6) ++ " (debug)".toList
        else "opentrack ".toList ++ rest) ∧
    (startsWith "opentrack-".toList v = false → endsWith "-DEBUG".toList v = true →
      init_tray_menu_display_name v = v.take (v.length - 6) ++ " (debug)".toList) ∧
    (startsWith "opentrack-".toList v = false → endsWith "-DEBUG".toList v = false →
      init_tray_menu_display_name v = v) ∧
    init_tray_menu_display_name "opentrack-2.3.1-DEBUG".toList =
      "opentrack 2.3.1 (debug)".toList ∧
    init_tray_menu_display_name "opentrack-DEBUG".toList = "opentrack DEBUG".toList := by
  refine ⟨?_, ?_, ?_, by decide, by decide⟩
  · rintro rest rfl
    rw [display_name_opentrack]
    refine ⟨?_, rfl⟩
    split
    · rw [List.append_assoc]; exact List.prefix_append _ _
    · exact List.prefix_append _ _
  · intro hp hs
    have hs2 : "-DEBUG".toList <:+ v := by simpa [endsWith] using hs
    simp only [init_tray_menu_display_name, hp, hs, if_true, Bool.false_eq_true, if_false]
    exact replace_DEBUG_suffix v hs2
  · intro hp hs
    simp only [init_tray_menu_display_name, hp, hs, Bool.false_eq_true, if_false]

/-- Witness of C19 (amended) on "opentrack-2.3.1-DEBUG", on "2.3.1-DEBUG" and on
"2.3.1". -/
theorem display_name_two_steps_witness :
    ("opentrack-2.3.1-DEBUG".toList = "opentrack-".toList ++ "2.3.1-DEBUG".toList ∧
      "opentrack ".toList <+: init_tray_menu_display_name "opentrack-2.3.1-DEBUG".toList) ∧
    (startsWith "opentrack-".toList "2.3.1-DEBUG".toList = false ∧
      endsWith "-DEBUG".toList "2.3.1-DEBUG".toList = true ∧
      init_tray_menu_display_name "2.3.1-DEBUG".toList =
        "2.3.1-DEBUG".toList.take ("2.3.1-DEBUG".toList.length - 6) ++ " (debug)".toList) ∧
    (startsWith "opentrack-".toList "2.3.1".toList = false ∧
      endsWith "-DEBUG".toList "2.3.1".toList = false ∧
      init_tray_menu_display_name "2.3.1".toList = "2.3.1".toList) :=
  ⟨⟨by decide,
      ((display_name_two_steps "opentrack-2.3.1-DEBUG".toList).1 "2.3.1-DEBUG".toList
        (by decide)).1⟩,
    ⟨by decide, by decide,
      (display_name_two_steps "2.3.1-DEBUG".toList).2.1 (by decide) (by decide)⟩,
    ⟨by decide, by decide,
      (display_name_two_steps "2.3.1".toList).2.2.1 (by decide) (by decide)⟩⟩

/-- Witness of C17 (amended): opening the tracker settings on a window with a
session and no dialog registers the new dialog with the live tracker. -/
theorem show_settings_dialog_witness :
    dialog_visible (startTracker sampleEnv MainWindow.init).pTrackerDialog = false ∧
    (some sampleDylib).any (fun l => l.has_Dialog) = true ∧
    (showTrackerSettings (some sampleDylib)
      (startTracker sampleEnv MainWindow.init)).pTrackerDialog =
      some { visible := true, registered := some { id := 1 } } :=
  ⟨by decide, by decide,
    by rw [(show_settings_dialog (some sampleDylib) (startTracker sampleEnv MainWindow.init)).1
      (by decide) (by decide)]; rfl⟩

/-! ### `FaceTrackNoIR` -/

/-- C12: `shortcutRecentered` and `shortcutToggled` call `center()` resp.
`toggle_enabled()` on the tracker of the live session exactly once when `work`
is non-null, and nothing else changes; when `work` is null both return the
window as it is, without any call. In neither case are `work` and `libs`
changed. Their `qDebug()` lines are "Center" and "Toggle". -/
theorem shortcuts_forwarded_or_dropped (s : FaceTrackNoIR) :
    (∀ w, s.work = some w →
      (FaceTrackNoIR.shortcutRecentered s).window =
        { s with trace := s.trace ++ [FtnEffect.tracker_center w] } ∧
      (FaceTrackNoIR.shortcutToggled s).window =
        { s with trace := s.trace ++ [FtnEffect.tracker_toggle_enabled w] }) ∧
    (s.work = none →
      (FaceTrackNoIR.shortcutRecentered s).window = s ∧
      (FaceTrackNoIR.shortcutToggled s).window = s) ∧
    (FaceTrackNoIR.shortcutRecentered s).window.work = s.work ∧
    (FaceTrackNoIR.shortcutRecentered s).window.libs = s.libs ∧
    (FaceTrackNoIR.shortcutToggled s).window.work = s.work ∧
    (FaceTrackNoIR.shortcutToggled s).window.libs = s.libs ∧
    (FaceTrackNoIR.shortcutRecentered s).debug = "Center" ∧
    (FaceTrackNoIR.shortcutToggled s).debug = "Toggle" := by
  refine ⟨?_, ?_, ?_, ?_, ?_, ?_, rfl, rfl⟩
  · intro w hw
    simp [FaceTrackNoIR.shortcutRecentered, FaceTrackNoIR.shortcutToggled, hw,
      FaceTrackNoIR.log]
  · intro hw
    simp [FaceTrackNoIR.shortcutRecentered, FaceTrackNoIR.shortcutToggled, hw]
  all_goals
    cases hw : s.work <;>
      simp [FaceTrackNoIR.shortcutRecentered, FaceTrackNoIR.shortcutToggled, hw,
        FaceTrackNoIR.log]

/-- Witness of C12: the shortcuts on a running window and on the idle one. -/
theorem shortcuts_forwarded_or_dropped_witness :
    (sampleFtnRunning.work = some { libs := sampleLibs } ∧
      (FaceTrackNoIR.shortcutRecentered sampleFtnRunning).window =
        { sampleFtnRunning with
          trace := sampleFtnRunning.trace ++ [FtnEffect.tracker_center { libs := sampleLibs }] }) ∧
    (FaceTrackNoIR.idle.work = none ∧
      (FaceTrackNoIR.shortcutToggled FaceTrackNoIR.idle).window = FaceTrackNoIR.idle) :=
  ⟨⟨by decide,
      ((shortcuts_forwarded_or_dropped sampleFtnRunning).1 _ (by decide)).1⟩,
    ⟨by decide, ((shortcuts_forwarded_or_dropped FaceTrackNoIR.idle).2.1 (by decide)).2⟩⟩

theorem ftn_startTracker_head (e : StartEnv) (s : FaceTrackNoIR) :
    FaceTrackNoIR.run (FaceTrackNoIR.startTracker_head e.built) s =
      { s with
        work := some { libs := e.built }
        libs := e.built
        trace := s.trace ++
          ([FtnEffect.settings_save, FtnEffect.settings_reload, FtnEffect.load_mappings] ++
            (if s.work.isSome then [FtnEffect.shortcuts_rebind] else []) ++
            [FtnEffect.work_reset, FtnEffect.libs_ctor s.libs e.built,
              FtnEffect.work_make e.built, FtnEffect.rotateBy_zero] ++
            (if s.mapping_widget then [FtnEffect.mapping_widget_update] else []) ++
            [FtnEffect.lcd_display_zero]) } := by
  obtain ⟨w, l, t, td, pd, fd, mw, kw, ui, tr⟩ := s
  cases w <;> cases mw <;>
    simp [FaceTrackNoIR.run, FaceTrackNoIR.startTracker_head, FaceTrackNoIR.settings_save,
      FaceTrackNoIR.loadSettings, FaceTrackNoIR.bindKeyboardShortcuts, FaceTrackNoIR.work_reset,
      FaceTrackNoIR.libs_assign_selected, FaceTrackNoIR.work_make,
      FaceTrackNoIR.display_pose_zero, FaceTrackNoIR.log]

theorem ftn_startTracker_failure (win32 : Bool) (e : StartEnv) (s : FaceTrackNoIR)
    (hc : e.built.correct = false) :
    (FaceTrackNoIR.startTracker win32 e s).work = some { libs := e.built } ∧
    (FaceTrackNoIR.startTracker win32 e s).libs = e.built ∧
    (FaceTrackNoIR.startTracker win32 e s).timUpdateHeadPose = s.timUpdateHeadPose := by
  simp [FaceTrackNoIR.startTracker, ftn_startTracker_head, hc, FaceTrackNoIR.warning,
    FaceTrackNoIR.log]

/-- C15, the code at the failing input: from the idle window, with libraries
that come back with `correct = false` and a live protocol instance,
`FaceTrackNoIR::startTracker` returns with `work` non-null (a `Work` built from
the failed libraries) and with the failed set kept in `libs`; only the timer
part holds there. From a running window the timer keeps running as well. -/
theorem ftn_startTracker_failure_keeps_session :
    FaceTrackNoIR.idle.work = none ∧ sampleBrokenEnv.built.correct = false ∧
    (FaceTrackNoIR.startTracker false sampleBrokenEnv FaceTrackNoIR.idle).work =
      some { libs := sampleBrokenLibs } ∧
    (FaceTrackNoIR.startTracker false sampleBrokenEnv FaceTrackNoIR.idle).libs =
      sampleBrokenLibs ∧
    (FaceTrackNoIR.startTracker false sampleBrokenEnv FaceTrackNoIR.idle).libs.live = true ∧
    (FaceTrackNoIR.startTracker false sampleBrokenEnv
      FaceTrackNoIR.idle).timUpdateHeadPose.active = false ∧
    (FaceTrackNoIR.startTracker false sampleBrokenEnv sampleFtnRunning).work.isSome = true ∧
    (FaceTrackNoIR.startTracker false sampleBrokenEnv
      sampleFtnRunning).timUpdateHeadPose.active = true := by
  decide

/-- Counterexample to C16 as stated: on a window with a running session built
from tracker 1 and protocol 2, `FaceTrackNoIR::startTracker` is no no-op: it
replaces `libs` and `work` by a new set, and the constructor of the new set ran
while `libs` still held the live old instances. -/
theorem ftn_startTracker_replaces_session :
    sampleFtnRunning.work.isSome = true ∧
    FaceTrackNoIR.startTracker false sampleEnv2 sampleFtnRunning ≠ sampleFtnRunning ∧
    sampleFtnRunning.libs = sampleLibs ∧
    (FaceTrackNoIR.startTracker false sampleEnv2 sampleFtnRunning).libs = sampleLibs2 ∧
    (FaceTrackNoIR.startTracker false sampleEnv2 sampleFtnRunning).work =
      some { libs := sampleLibs2 } ∧
    FtnEffect.libs_ctor sampleLibs sampleLibs2 ∈
      (FaceTrackNoIR.startTracker false sampleEnv2 sampleFtnRunning).trace ∧
    sampleLibs.live = true := by
  decide

/-- C16, amended: on a window with a session `FaceTrackNoIR::startTracker` does
not reject the request. When the newly selected libraries load
(`correct = true`) it rebinds the shortcuts of the old `Work`, releases it
(`work = nullptr`) before the `SelectedLibraries` constructor runs, replaces
`libs` by the newly constructed set, builds a new `Work` from it and starts the
pose timer with 50 ms: the old session is replaced, not kept. What is left
after a load that fails is not part of this statement. -/
theorem ftn_startTracker_on_session (win32 : Bool) (e : StartEnv) (s : FaceTrackNoIR)
    (h : s.work.isSome = true) (hc : e.built.correct = true) :
    (FaceTrackNoIR.startTracker win32 e s).work = some { libs := e.built } ∧
    (FaceTrackNoIR.startTracker win32 e s).libs = e.built ∧
    (FaceTrackNoIR.startTracker win32 e s).libs.correct = true ∧
    (FaceTrackNoIR.startTracker win32 e s).timUpdateHeadPose = { active := true, interval := 50 } ∧
    (FaceTrackNoIR.startTracker win32 e s).ui.btnStartTracker_enabled = false ∧
    (FaceTrackNoIR.startTracker win32 e s).ui.btnStopTracker_enabled = true ∧
    (∀ title text,
      FtnEffect.warning title text ∈ (FaceTrackNoIR.startTracker win32 e s).trace →
      FtnEffect.warning title text ∈ s.trace) ∧
    ∃ held rest, (FaceTrackNoIR.startTracker win32 e s).trace = s.trace ++
      [FtnEffect.settings_save, FtnEffect.settings_reload, FtnEffect.load_mappings,
        FtnEffect.shortcuts_rebind, FtnEffect.work_reset, FtnEffect.libs_ctor held e.built,
        FtnEffect.work_make e.built] ++ rest := by
  have hh := ftn_startTracker_head e s
  cases win32 <;> cases hm : s.mapping_widget <;>
    simp only [FaceTrackNoIR.startTracker, hh] <;>
    simp [hc, h, hm, FaceTrackNoIR.log, FaceTrackNoIR.run, FaceTrackNoIR.startTracker_tail,
      FaceTrackNoIR.keybinding_worker_start, FaceTrackNoIR.video_frame_show,
      FaceTrackNoIR.timer_start, FaceTrackNoIR.updateButtonState]

/-- Witness of C16 (amended): a second start, with libraries that load, on the
running window. -/
theorem ftn_startTracker_on_session_witness :
    sampleFtnRunning.work.isSome = true ∧ sampleEnv2.built.correct = true ∧
    (FaceTrackNoIR.startTracker false sampleEnv2 sampleFtnRunning).work =
      some { libs := sampleEnv2.built } ∧
    (FaceTrackNoIR.startTracker false sampleEnv2 sampleFtnRunning).libs = sampleEnv2.built :=
  have h := ftn_startTracker_on_session false sampleEnv2 sampleFtnRunning (by decide) (by decide)
  ⟨by decide, by decide, h.1, h.2.1⟩

theorem addItems_sentinel_at_back (fs : List Dylib) (c : Selector) :
    addItems (fs.map some ++ [none]) c =
      { items := c.items ++ fs.map (fun x => x.name), null_dereferenced := true } := by
  induction fs generalizing c with
  | nil => simp [addItems]
  | cons x fs ih => simp [addItems, ih]

/-- C18, the code on every list of filter descriptors: the constructor pushes the
null "no filter" sentinel at the back of `modules.filters()` and then
dereferences it in the `addItem` loop; the selector holds the empty entry at
index 0 and the names of the descriptors from index 1 on, one place after
their place in the list. With the single filter "Accela" the selector shows ""
at 0 and "Accela" at 1, while `value(0)` is Accela and `value(1)` the
sentinel. -/
theorem ftn_filter_selector_sentinel (fs : List Dylib) :
    (FaceTrackNoIR.fill_filter_selector (fs.map some)).iconcomboFilter.null_dereferenced
      = true ∧
    (FaceTrackNoIR.fill_filter_selector (fs.map some)).iconcomboFilter.items =
      "" :: fs.map (fun x => x.name) ∧
    (FaceTrackNoIR.fill_filter_selector (fs.map some)).filters = fs.map some ++ [none] ∧
    (FaceTrackNoIR.fill_filter_selector [some sampleDylib]).iconcomboFilter.items =
      ["", "Accela"] ∧
    QList_value (FaceTrackNoIR.fill_filter_selector [some sampleDylib]).filters 0 =
      some sampleDylib ∧
    QList_value (FaceTrackNoIR.fill_filter_selector [some sampleDylib]).filters 1 = none := by
  refine ⟨?_, ?_, rfl, by decide, by decide, by decide⟩
  · simp [FaceTrackNoIR.fill_filter_selector, addItems_sentinel_at_back]
  · simp [FaceTrackNoIR.fill_filter_selector, addItems_sentinel_at_back]

/-! ### The order of destruction -/

theorem destroyed_between_self (l : SelectedLibraries) : destroyed_between l l = [] := by
  simp [destroyed_between, List.filter_eq_nil_iff]

theorem destroyed_between_empty (l : SelectedLibraries) :
    destroyed_between l SelectedLibraries.empty = l.teardown := by
  simp [destroyed_between, SelectedLibraries.teardown, SelectedLibraries.empty]

theorem stopTracker_upto_libs (s : MainWindow) (k : Nat) :
    (stopTracker_upto k s).libs = if k ≤ 7 then s.libs else SelectedLibraries.empty := by
  obtain hk | hk := Nat.lt_or_ge k 13
  · interval_cases k <;>
      simp [stopTracker_upto, stopTracker_body, run, pose_update_timer_stop,
        rotateBy_real_zero, unregister_tracker_dialog_eq, unregister_protocol_dialog_eq,
        unregister_filter_dialog_eq, save_modules, work_reset, libs_reset, display_pose_zero,
        mapping_widget_update_eq, set_title, updateButtonState, options_update_widgets_states_eq,
        set_focus, MainWindow.log]
  · rw [stopTracker_upto_of_length_le k _ (by simpa [stopTracker_body] using hk)]
    have h7 : ¬ k ≤ 7 := by omega
    simp [h7, stopTracker_body, run, pose_update_timer_stop,
      rotateBy_real_zero, unregister_tracker_dialog_eq, unregister_protocol_dialog_eq,
      unregister_filter_dialog_eq, save_modules, work_reset, libs_reset, display_pose_zero,
      mapping_widget_update_eq, set_title, updateButtonState, options_update_widgets_states_eq,
      set_focus, MainWindow.log]

theorem ftn_close_tracker_dialog_eq (s : FaceTrackNoIR) :
    FaceTrackNoIR.close_tracker_dialog s =
      { s with
        pTrackerDialog := none
        trace := s.trace ++
          (if s.pTrackerDialog.isSome then [FtnEffect.unregister_tracker] else []) } := by
  obtain ⟨w, l, t, td, pd, fd, mw, kw, ui, tr⟩ := s
  cases td <;> simp [FaceTrackNoIR.close_tracker_dialog, FaceTrackNoIR.log]

theorem ftn_close_protocol_dialog_eq (s : FaceTrackNoIR) :
    FaceTrackNoIR.close_protocol_dialog s =
      { s with
        pProtocolDialog := none
        trace := s.trace ++
          (if s.pProtocolDialog.isSome then [FtnEffect.unregister_protocol] else []) } := by
  obtain ⟨w, l, t, td, pd, fd, mw, kw, ui, tr⟩ := s
  cases pd <;> simp [FaceTrackNoIR.close_protocol_dialog, FaceTrackNoIR.log]

theorem ftn_close_filter_dialog_eq (s : FaceTrackNoIR) :
    FaceTrackNoIR.close_filter_dialog s =
      { s with
        pFilterDialog := none
        trace := s.trace ++
          (if s.pFilterDialog.isSome then [FtnEffect.unregisterFilter] else []) } := by
  obtain ⟨w, l, t, td, pd, fd, mw, kw, ui, tr⟩ := s
  cases fd <;> simp [FaceTrackNoIR.close_filter_dialog, FaceTrackNoIR.log]

theorem ftn_keybinding_worker_quit_eq (s : FaceTrackNoIR) :
    FaceTrackNoIR.keybinding_worker_quit s =
      { s with
        keybindingWorker := false
        trace := s.trace ++
          (if s.keybindingWorker then [FtnEffect.keybinding_worker_quit] else []) } := by
  obtain ⟨w, l, t, td, pd, fd, mw, kw, ui, tr⟩ := s
  cases kw <;> simp [FaceTrackNoIR.keybinding_worker_quit, FaceTrackNoIR.log]

theorem ftn_display_pose_zero_eq (s : FaceTrackNoIR) :
    FaceTrackNoIR.display_pose_zero s =
      { s with
        trace := s.trace ++ [FtnEffect.rotateBy_zero] ++
          (if s.mapping_widget then [FtnEffect.mapping_widget_update] else []) ++
          [FtnEffect.lcd_display_zero] } := by
  obtain ⟨w, l, t, td, pd, fd, mw, kw, ui, tr⟩ := s
  cases mw <;> simp [FaceTrackNoIR.display_pose_zero, FaceTrackNoIR.log]

theorem ftn_stopTracker_upto_of_length_le (k : Nat) (s : FaceTrackNoIR)
    (hk : FaceTrackNoIR.stopTracker_body.length ≤ k) :
    FaceTrackNoIR.stopTracker_upto k s = FaceTrackNoIR.run FaceTrackNoIR.stopTracker_body s := by
  rw [FaceTrackNoIR.stopTracker_upto, List.take_of_length_le hk]

theorem ftn_stopTracker_upto_libs (s : FaceTrackNoIR) (k : Nat) :
    (FaceTrackNoIR.stopTracker_upto k s).libs =
      (if k ≤ 8 then s.libs else SelectedLibraries.empty) ∧
    (8 ≤ k → (FaceTrackNoIR.stopTracker_upto k s).work = none) := by
  obtain hk | hk := Nat.lt_or_ge k 11
  · interval_cases k <;>
      simp [FaceTrackNoIR.stopTracker_upto, FaceTrackNoIR.stopTracker_body, FaceTrackNoIR.run,
        FaceTrackNoIR.game_name_setText, ftn_keybinding_worker_quit_eq, FaceTrackNoIR.timer_stop,
        FaceTrackNoIR.rotateBy_zero, ftn_close_tracker_dialog_eq, ftn_close_protocol_dialog_eq,
        ftn_close_filter_dialog_eq, FaceTrackNoIR.work_reset, FaceTrackNoIR.libs_reset,
        ftn_display_pose_zero_eq, FaceTrackNoIR.updateButtonState, FaceTrackNoIR.log]
  · rw [ftn_stopTracker_upto_of_length_le k _ (by simpa [FaceTrackNoIR.stopTracker_body] using hk)]
    have h8 : ¬ k ≤ 8 := by omega
    simp [h8, FaceTrackNoIR.stopTracker_body, FaceTrackNoIR.run,
      FaceTrackNoIR.game_name_setText, ftn_keybinding_worker_quit_eq, FaceTrackNoIR.timer_stop,
      FaceTrackNoIR.rotateBy_zero, ftn_close_tracker_dialog_eq, ftn_close_protocol_dialog_eq,
      ftn_close_filter_dialog_eq, FaceTrackNoIR.work_reset, FaceTrackNoIR.libs_reset,
      ftn_display_pose_zero_eq, FaceTrackNoIR.updateButtonState, FaceTrackNoIR.log]

theorem stopTracker_upto_work (s : MainWindow) (k : Nat) (hk : 7 ≤ k) :
    (stopTracker_upto k s).work = none := by
  obtain hk2 | hk2 := Nat.lt_or_ge k 13
  · interval_cases k <;>
      simp [stopTracker_upto, stopTracker_body, run, pose_update_timer_stop,
        rotateBy_real_zero, unregister_tracker_dialog_eq, unregister_protocol_dialog_eq,
        unregister_filter_dialog_eq, save_modules, work_reset, libs_reset, display_pose_zero,
        mapping_widget_update_eq, set_title, updateButtonState, options_update_widgets_states_eq,
        set_focus, MainWindow.log]
  · rw [stopTracker_upto_of_length_le k _ (by simpa [stopTracker_body] using hk2)]
    simp [stopTracker_body, run, pose_update_timer_stop,
      rotateBy_real_zero, unregister_tracker_dialog_eq, unregister_protocol_dialog_eq,
      unregister_filter_dialog_eq, save_modules, work_reset, libs_reset, display_pose_zero,
      mapping_widget_update_eq, set_title, updateButtonState, options_update_widgets_states_eq,
      set_focus, MainWindow.log]

theorem stopTracker_destroyed_session (s : MainWindow) (h : s.work.isSome = true) :
    stopTracker_destroyed s = s.libs.teardown := by
  have hn : s.work.isNone = false := by
    cases hw : s.work with
    | none => simp [hw] at h
    | some w => rfl
  have hlen : stopTracker_body.length = 13 := rfl
  simp [stopTracker_destroyed, hn, hlen, stopTracker_upto_libs, List.range_succ,
    destroyed_between_self, destroyed_between_empty]

theorem ftn_stopTracker_destroyed_eq (s : FaceTrackNoIR) :
    FaceTrackNoIR.stopTracker_destroyed s = s.libs.teardown := by
  have hlen : FaceTrackNoIR.stopTracker_body.length = 11 := rfl
  simp [FaceTrackNoIR.stopTracker_destroyed, hlen, (ftn_stopTracker_upto_libs s _).1,
    List.range_succ, destroyed_between_self, destroyed_between_empty]

theorem teardown_getLast (l : SelectedLibraries) (t : Instance) (h : l.pTracker = some t) :
    l.teardown.getLast? = some (Capability.tracker, t) := by
  simp [SelectedLibraries.teardown, h]

/-- C11: when `stopTracker` tears a session down, in `MainWindow` and in
`FaceTrackNoIR` alike, the instances held by `libs` are destroyed in the order
protocol, then filter, then tracker, so that the tracker instance is the last
one released; all of them go in the statement `libs = SelectedLibraries()`,
which runs after `work = nullptr`, and none is left afterwards. -/
theorem teardown_protocol_filter_tracker (s : MainWindow) (f : FaceTrackNoIR) :
    (s.work.isSome = true →
      stopTracker_destroyed s =
        (s.libs.pProtocol.map (fun i => (Capability.protocol, i))).toList ++
        (s.libs.pFilter.map (fun i => (Capability.filter, i))).toList ++
        (s.libs.pTracker.map (fun i => (Capability.tracker, i))).toList ∧
      (∀ t, s.libs.pTracker = some t →
        (stopTracker_destroyed s).getLast? = some (Capability.tracker, t)) ∧
      (∀ k, destroyed_between (stopTracker_upto k s).libs (stopTracker_upto (k + 1) s).libs ≠ [] →
        (stopTracker_upto k s).work = none) ∧
      (stopTracker s).libs.teardown = []) ∧
    (FaceTrackNoIR.stopTracker_destroyed f =
        (f.libs.pProtocol.map (fun i => (Capability.protocol, i))).toList ++
        (f.libs.pFilter.map (fun i => (Capability.filter, i))).toList ++
        (f.libs.pTracker.map (fun i => (Capability.tracker, i))).toList ∧
      (∀ t, f.libs.pTracker = some t →
        (FaceTrackNoIR.stopTracker_destroyed f).getLast? = some (Capability.tracker, t)) ∧
      (∀ k,
        destroyed_between (FaceTrackNoIR.stopTracker_upto k f).libs
          (FaceTrackNoIR.stopTracker_upto (k + 1) f).libs ≠ [] →
        (FaceTrackNoIR.stopTracker_upto k f).work = none) ∧
      (FaceTrackNoIR.stopTracker f).libs.teardown = []) := by
  refine ⟨fun h => ⟨?_, ?_, ?_, ?_⟩, ?_, ?_, ?_, ?_⟩
  · rw [stopTracker_destroyed_session s h]; rfl
  · intro t ht
    rw [stopTracker_destroyed_session s h]
    exact teardown_getLast _ t ht
  · intro k hk
    by_cases h7 : 7 ≤ k
    · exact stopTracker_upto_work s k h7
    · exfalso
      apply hk
      rw [stopTracker_upto_libs, stopTracker_upto_libs, if_pos (by omega), if_pos (by omega)]
      exact destroyed_between_self _
  · rw [(stopTracker_session s h).1]; rfl
  · rw [ftn_stopTracker_destroyed_eq]; rfl
  · intro t ht
    rw [ftn_stopTracker_destroyed_eq]
    exact teardown_getLast _ t ht
  · intro k hk
    by_cases h8 : 8 ≤ k
    · exact (ftn_stopTracker_upto_libs f k).2 h8
    · exfalso
      apply hk
      rw [(ftn_stopTracker_upto_libs f k).1, (ftn_stopTracker_upto_libs f (k + 1)).1,
        if_pos (by omega), if_pos (by omega)]
      exact destroyed_between_self _
  · have h := (ftn_stopTracker_upto_libs f 11).1
    rw [ftn_stopTracker_upto_of_length_le 11 f (by decide)] at h
    rw [FaceTrackNoIR.stopTracker, h]
    rfl

/-- Witness of C11: stopping the running `MainWindow`, whose `libs` holds tracker
1 and protocol 2, destroys the protocol and then the tracker. -/
theorem teardown_protocol_filter_tracker_witness :
    sampleRunning.work.isSome = true ∧
    stopTracker_destroyed sampleRunning =
      [(Capability.protocol, { id := 2 }), (Capability.tracker, { id := 1 })] ∧
    FaceTrackNoIR.stopTracker_destroyed sampleFtnRunning =
      [(Capability.protocol, { id := 2 }), (Capability.tracker, { id := 1 })] :=
  ⟨by decide,
    ((teardown_protocol_filter_tracker sampleRunning sampleFtnRunning).1 (by decide)).1,
    (teardown_protocol_filter_tracker sampleRunning sampleFtnRunning).2.1⟩

/-! ### Handlers that wait in a warning box -/

theorem startTracker_until_box_split (e : StartEnv) (s : MainWindow) (bs : List Pending) :
    (startTracker_until_box e { window := s, pending := bs } =
        { window := startTracker e s, pending := bs }) ∨
    (∃ w, startTracker_until_box e { window := s, pending := bs } =
        { window := w, pending := Pending.library_load_error :: bs } ∧
      libs_reset w = startTracker e s) := by
  cases hw : s.work with
  | some w => left; simp [startTracker_until_box, startTracker, hw]
  | none =>
    cases hc : (display_pose_zero (libs_assign_selected e.built (work_reset s))).libs.correct with
    | true => left; simp [startTracker_until_box, startTracker, hw, hc]
    | false =>
      right
      refine ⟨warning "Library load error" "One of libraries failed to load. Check installation."
        (display_pose_zero (libs_assign_selected e.built (work_reset s))), ?_, ?_⟩
      · simp [startTracker_until_box, hw, hc]
      · simp [startTracker, hw, hc]

/-- C1, the code at the failing input: a Start whose libraries fail to load
(`correct = false`, protocol instance 3 built) waits in the "Library load
error" box with `work` null and `libs` holding the failed set; a Start
delivered meanwhile runs the `SelectedLibraries` constructor while `libs` still
holds that live instance. -/
theorem nested_start_constructs_over_live_libs :
    (loop_steps EventLoop.init [LoopEvent.handler (Event.start sampleBrokenEnv)]).pending =
      [Pending.library_load_error] ∧
    (loop_steps EventLoop.init
      [LoopEvent.handler (Event.start sampleBrokenEnv)]).window.work = none ∧
    (loop_steps EventLoop.init
      [LoopEvent.handler (Event.start sampleBrokenEnv)]).window.libs = sampleBrokenLibs ∧
    (loop_steps EventLoop.init
      [LoopEvent.handler (Event.start sampleBrokenEnv)]).window.libs.live = true ∧
    Effect.libs_ctor sampleBrokenLibs sampleLibs ∈
      (loop_steps EventLoop.init
        [LoopEvent.handler (Event.start sampleBrokenEnv),
          LoopEvent.handler (Event.start sampleEnv)]).window.trace ∧
    sampleBrokenLibs.live = true ∧
    Effect.libs_ctor sampleBrokenLibs sampleLibs ∈
      (loop_steps EventLoop.init
        [LoopEvent.handler (Event.start sampleBrokenEnv),
          LoopEvent.handler
            (Event.maybe_start { config_to_start := some "game.ini", should_stop := false }
              { switches := false, writable := true } sampleEnv)]).window.trace := by
  decide

/-- C9, the code at the failing input: a Start whose libraries fail to load
waits in the "Library load error" box, a Start delivered meanwhile succeeds,
and when the box is closed the first Start runs on with
`libs = SelectedLibraries()`: the pose timer is active and `work` is non-null,
but `libs` is empty and not `correct`, the instances of the running session
released. -/
theorem timer_active_over_reset_libs :
    (loop_steps EventLoop.init
      [LoopEvent.handler (Event.start sampleBrokenEnv),
        LoopEvent.handler (Event.start sampleEnv),
        LoopEvent.box_ok]).pending = [] ∧
    (loop_steps EventLoop.init
      [LoopEvent.handler (Event.start sampleBrokenEnv),
        LoopEvent.handler (Event.start sampleEnv),
        LoopEvent.box_ok]).window.pose_update_timer.active = true ∧
    (loop_steps EventLoop.init
      [LoopEvent.handler (Event.start sampleBrokenEnv),
        LoopEvent.handler (Event.start sampleEnv),
        LoopEvent.box_ok]).window.work = some { libs := sampleLibs } ∧
    (loop_steps EventLoop.init
      [LoopEvent.handler (Event.start sampleBrokenEnv),
        LoopEvent.handler (Event.start sampleEnv),
        LoopEvent.box_ok]).window.libs = SelectedLibraries.empty ∧
    (loop_steps EventLoop.init
      [LoopEvent.handler (Event.start sampleBrokenEnv),
        LoopEvent.handler (Event.start sampleEnv),
        LoopEvent.box_ok]).window.libs.correct = false ∧
    (showHeadPose (loop_steps EventLoop.init
      [LoopEvent.handler (Event.start sampleBrokenEnv),
        LoopEvent.handler (Event.start sampleEnv),
        LoopEvent.box_ok]).window).isSome = true := by
  decide

theorem loop_steps_append (c : EventLoop) (a b : List LoopEvent) :
    loop_steps c (a ++ b) = loop_steps (loop_steps c a) b := by
  simp [loop_steps, List.foldl_append]

theorem startTracker_until_box_settles (e : StartEnv) (s : MainWindow) :
    ∃ oks, loop_steps (startTracker_until_box e { window := s, pending := [] }) oks =
      { window := startTracker e s, pending := [] } := by
  rcases startTracker_until_box_split e s [] with h | ⟨w, h, hw⟩
  · exact ⟨[], by rw [h]; rfl⟩
  · refine ⟨[LoopEvent.box_ok], ?_⟩
    rw [h]
    simp [loop_steps, loop_step, box_closed, hw]

theorem loop_simulates_step (s : MainWindow) (ev : Event) :
    ∃ oks, loop_steps { window := s, pending := [] } (LoopEvent.handler ev :: oks) =
      { window := step s ev, pending := [] } := by
  cases ev with
  | start e => exact startTracker_until_box_settles e s
  | stop => exact ⟨[], rfl⟩
  | toggle e =>
    cases hw : s.work with
    | some w => exact ⟨[], by simp [loop_steps, loop_step, step, on_toggle_tracker, hw]⟩
    | none =>
      obtain ⟨oks, h⟩ := startTracker_until_box_settles e s
      exact ⟨oks, by simpa [loop_steps, loop_step, step, on_toggle_tracker, hw] using h⟩
  | restart e =>
    obtain ⟨oks, h⟩ := startTracker_until_box_settles e (stopTracker s)
    exact ⟨oks, by simpa [loop_steps, loop_step, step, on_restart_tracker] using h⟩
  | maybe_start d p e =>
    cases hw : s.work with
    | some w =>
      cases hs : d.should_stop <;>
        exact ⟨[], by
          simp [loop_steps, loop_step, step, maybe_start_until_box,
            maybe_start_profile_from_executable, hw, hs]⟩
    | none =>
      cases hc : d.config_to_start with
      | none =>
        exact ⟨[], by
          simp [loop_steps, loop_step, step, maybe_start_until_box,
            maybe_start_profile_from_executable, hw, hc]⟩
      | some prof =>
        cases hsw : p.switches with
        | false =>
          obtain ⟨oks, h⟩ := startTracker_until_box_settles e
            (s.log (Effect.profile_set_current_text prof))
          exact ⟨oks, by
            simpa [loop_steps, loop_step, step, maybe_start_until_box,
              maybe_start_profile_from_executable, profile_set_current_text, profile_selected,
              hw, hc, hsw] using h⟩
        | true =>
          cases hwr : p.writable with
          | true =>
            obtain ⟨oks, h⟩ := startTracker_until_box_settles e
              ((set_title none
                ((save_modules (s.log (Effect.profile_set_current_text prof))).log
                  (Effect.set_profile prof))).log Effect.refresh_all_bundles)
            exact ⟨oks, by
              simpa [loop_steps, loop_step, step, maybe_start_until_box,
                maybe_start_profile_from_executable, profile_set_current_text, profile_selected,
                hw, hc, hsw, hwr] using h⟩
          | false =>
            obtain ⟨oks, h⟩ := startTracker_until_box_settles e
              ((set_title none
                (warning "Something went wrong"
                  "Check permissions and ownership for your .ini file!"
                  ((save_modules (s.log (Effect.profile_set_current_text prof))).log
                    (Effect.set_profile prof)))).log Effect.refresh_all_bundles)
            exact ⟨LoopEvent.box_ok :: oks, by
              simpa [loop_steps, loop_step, step, maybe_start_until_box, box_closed,
                maybe_start_profile_from_executable, profile_set_current_text, profile_selected,
                hw, hc, hsw, hwr] using h⟩

theorem loop_simulates_steps (evs : List Event) (s : MainWindow) :
    ∃ levs, loop_steps { window := s, pending := [] } levs =
      { window := steps s evs, pending := [] } := by
  induction evs generalizing s with
  | nil => exact ⟨[], rfl⟩
  | cons ev evs ih =>
    obtain ⟨oks, h1⟩ := loop_simulates_step s ev
    obtain ⟨levs, h2⟩ := ih (step s ev)
    refine ⟨(LoopEvent.handler ev :: oks) ++ levs, ?_⟩
    rw [loop_steps_append, h1, h2]
    rfl

/-- Every window reachable by handlers run to their end is reachable in the event
loop, with no box open: each handler is delivered and its boxes are closed at
once. -/
theorem LoopReachable_of_Reachable (s : MainWindow) (h : Reachable s) :
    LoopReachable { window := s, pending := [] } := by
  obtain ⟨evs, rfl⟩ := h
  exact loop_simulates_steps evs MainWindow.init

theorem LoopInv_of_same (s t : MainWindow) (hw : t.work = s.work)
    (ht : t.pose_update_timer = s.pose_update_timer) (hu : t.ui = s.ui) (h : LoopInv s) :
    LoopInv t := by
  simpa [LoopInv, widgets_follow_session, hw, ht, hu] using h

theorem LoopInv_stopTracker (s : MainWindow) (h : LoopInv s) : LoopInv (stopTracker s) := by
  refine ⟨?_, widgets_follow_session_stopTracker s h.2⟩
  cases hw : s.work with
  | none => rw [stopTracker_of_no_session s hw]; exact h.1
  | some w =>
    intro hact
    rw [(stopTracker_session s (by simp [hw])).2.1] at hact
    exact absurd hact (by decide)

theorem LoopInv_startTracker (e : StartEnv) (s : MainWindow) (h : LoopInv s) :
    LoopInv (startTracker e s) := by
  refine ⟨?_, widgets_follow_session_startTracker e s h.2⟩
  cases hw : s.work with
  | some w =>
    have hs : startTracker e s = s := by simp [startTracker, hw]
    rw [hs]; exact h.1
  | none =>
    obtain ⟨h1, _, h3, _⟩ := startTracker_no_session e s hw
    intro hact
    rw [h1]
    cases hc : e.built.correct with
    | true => rfl
    | false =>
      rw [h3, hc] at hact
      have := h.1 (by simpa using hact)
      rw [hw] at this
      simp at this

theorem LoopInv_startTracker_until_box (e : StartEnv) (c : EventLoop) (h : LoopInv c.window) :
    LoopInv (startTracker_until_box e c).window := by
  obtain ⟨s, bs⟩ := c
  rcases startTracker_until_box_split e s bs with hs | ⟨w, hs, hw⟩
  · rw [hs]; exact LoopInv_startTracker e s h
  · rw [hs]
    have h2 : LoopInv (libs_reset w) := by rw [hw]; exact LoopInv_startTracker e s h
    exact LoopInv_of_same (libs_reset w) w rfl rfl rfl h2

theorem LoopInv_log (ef : Effect) (s : MainWindow) (h : LoopInv s) : LoopInv (s.log ef) :=
  LoopInv_of_same s (s.log ef) rfl rfl rfl h

theorem LoopInv_libs_reset (s : MainWindow) (h : LoopInv s) : LoopInv (libs_reset s) :=
  LoopInv_of_same s (libs_reset s) rfl rfl rfl h

theorem LoopInv_maybe_start_until_box (d : DetectorPoll) (p : ProfileStore) (e : StartEnv)
    (c : EventLoop) (h : LoopInv c.window) :
    LoopInv (maybe_start_until_box d p e c).window := by
  obtain ⟨s, bs⟩ := c
  cases hw : s.work with
  | some w =>
    cases hs : d.should_stop
    · simpa [maybe_start_until_box, hw, hs] using h
    · simpa [maybe_start_until_box, hw, hs] using LoopInv_stopTracker s h
  | none =>
    cases hc : d.config_to_start with
    | none => simpa [maybe_start_until_box, hw, hc] using h
    | some prof =>
      have h0 : LoopInv (s.log (Effect.profile_set_current_text prof)) := LoopInv_log _ _ h
      have h1 : LoopInv ((save_modules (s.log (Effect.profile_set_current_text prof))).log
          (Effect.set_profile prof)) := LoopInv_log _ _ (LoopInv_log _ _ h0)
      cases hsw : p.switches with
      | false =>
        have := LoopInv_startTracker_until_box e
          { window := s.log (Effect.profile_set_current_text prof), pending := bs } h0
        simpa [maybe_start_until_box, hw, hc, hsw] using this
      | true =>
        cases hwr : p.writable with
        | true =>
          have := LoopInv_startTracker_until_box e
            { window := (set_title none
                ((save_modules (s.log (Effect.profile_set_current_text prof))).log
                  (Effect.set_profile prof))).log Effect.refresh_all_bundles
              pending := bs } (LoopInv_log _ _ (LoopInv_log _ _ h1))
          simpa [maybe_start_until_box, hw, hc, hsw, hwr] using this
        | false =>
          have : LoopInv (warning "Something went wrong"
              "Check permissions and ownership for your .ini file!"
              ((save_modules (s.log (Effect.profile_set_current_text prof))).log
                (Effect.set_profile prof))) := LoopInv_log _ _ h1
          simpa [maybe_start_until_box, hw, hc, hsw, hwr] using this

theorem LoopInv_box_closed (c : EventLoop) (h : LoopInv c.window) :
    LoopInv (box_closed c).window := by
  obtain ⟨s, bs⟩ := c
  cases bs with
  | nil => exact h
  | cons b rest =>
    cases b with
    | library_load_error => exact LoopInv_libs_reset s h
    | config_not_writable e =>
      exact LoopInv_startTracker_until_box e
        { window := (set_title none s).log Effect.refresh_all_bundles, pending := rest }
        (LoopInv_log _ _ (LoopInv_log _ _ h))

theorem LoopInv_loop_step (c : EventLoop) (ev : LoopEvent) (h : LoopInv c.window) :
    LoopInv (loop_step c ev).window := by
  cases ev with
  | box_ok => exact LoopInv_box_closed c h
  | handler ev =>
    cases ev with
    | start e => exact LoopInv_startTracker_until_box e c h
    | stop => exact LoopInv_stopTracker c.window h
    | toggle e =>
      cases hw : c.window.work.isSome
      · simpa [loop_step, hw] using LoopInv_startTracker_until_box e c h
      · simpa [loop_step, hw] using LoopInv_stopTracker c.window h
    | restart e =>
      exact LoopInv_startTracker_until_box e { c with window := stopTracker c.window }
        (LoopInv_stopTracker c.window h)
    | maybe_start d p e => exact LoopInv_maybe_start_until_box d p e c h

theorem LoopInv_init : LoopInv MainWindow.init :=
  ⟨by simp [MainWindow.init], widgets_follow_session_init⟩

/-- What holds in every reachable event loop, handlers that wait in a warning box
included: the pose timer runs only while `work` is non-null, so `showHeadPose`
finds a `work` to dereference, and the widgets follow the session. -/
theorem LoopInv_of_LoopReachable (c : EventLoop) (h : LoopReachable c) :
    LoopInv c.window ∧
    (c.window.pose_update_timer.active = true → (showHeadPose c.window).isSome = true) := by
  obtain ⟨evs, rfl⟩ := h
  have key : ∀ (evs : List LoopEvent) (c : EventLoop), LoopInv c.window →
      LoopInv (loop_steps c evs).window := by
    intro evs
    induction evs with
    | nil => intro c hc; exact hc
    | cons ev evs ih => intro c hc; exact ih (loop_step c ev) (LoopInv_loop_step c ev hc)
  have hi := key evs EventLoop.init LoopInv_init
  refine ⟨hi, ?_⟩
  intro hact
  have hw := hi.1 hact
  cases hs : (loop_steps EventLoop.init evs).window.work with
  | none => simp [hs] at hw
  | some w => simp [showHeadPose, hs]

end Opentrack
